import Mathlib

/-!
Verification of the pulpscript-to-lua transpiler backend (`src/pulpscript.py`).

The development shallowly embeds the transpiler: the mutable
`PulpScriptContext` becomes an explicit record threaded through all
functions, Python strings become `String`, Python lists/dicts/sets become
`List`-based structures, and the flat block table (`ctx.blocks`) is inlined
into the AST (block references carry their command list directly, which is
equivalent for well-formed inputs where every block index dereferences).

Python's in-place AST mutation (`optimize_name_ref` rewriting a node to an
`optimized-id` marker) is modelled by re-applying the same deterministic
rewrite wherever the mutated node is later inspected; the rewrite depends
only on the node and the immutable tile-id table, so this is faithful.

Core `String` operations whose kernel reduction is unreliable
(`String.replace`, `String.startsWith`, `String.trim`, ...) are replaced by
structurally recursive equivalents over `String.data` that mirror the
Python semantics exactly.
-/

/-- `c in s` on a Python string (single-character membership). -/
def strContains (s : String) (c : Char) : Bool := s.data.contains c

/-- Python `s.startswith(p)`. -/
def pyStartsWith (s p : String) : Bool := p.data.isPrefixOf s.data

/-- Python's whitespace set for `str.strip()`. -/
def pyWhitespace (c : Char) : Bool :=
  c = ' ' || c = '\t' || c = '\n' || c = '\r' || c = '\x0b' || c = '\x0c'

/-- Python `s.strip()`. -/
def pyStrip (s : String) : String :=
  ⟨((s.data.dropWhile pyWhitespace).reverse.dropWhile pyWhitespace).reverse⟩

/-- Remove `pat` as a literal prefix of `s`, if it is one. -/
def dropPre : List Char → List Char → Option (List Char)
  | s, [] => some s
  | [], _ :: _ => none
  | c :: s, p :: ps => if c = p then dropPre s ps else none

/-- Fuelled worker for `pyReplace`; the fuel is the length of the subject,
which suffices because each step consumes at least one character when the
pattern is non-empty. -/
def listReplaceAux (pat rep : List Char) : Nat → List Char → List Char
  | 0, s => s
  | _ + 1, [] => []
  | n + 1, c :: rest =>
    match dropPre (c :: rest) pat with
    | some rem => rep ++ listReplaceAux pat rep n rem
    | none => c :: listReplaceAux pat rep n rest

/-- Python `s.replace(pat, rep)` (all occurrences, left to right,
non-overlapping).  The transpiler never calls it with an empty pattern. -/
def pyReplace (s pat rep : String) : String :=
  if pat.data.isEmpty then s else ⟨listReplaceAux pat.data rep.data s.data.length s.data⟩

/-- Python `s[n:]`. -/
def strDrop (s : String) (n : Nat) : String := ⟨s.data.drop n⟩

/-- Python `s[:-1]`. -/
def strDropLast (s : String) : String := ⟨s.data.dropLast⟩

/-- Python `s[1:-1]` (used on quoted call-name strings). -/
def strMid (s : String) : String := strDropLast (strDrop s 1)

/-- Python `s.split(sep)` for a single-character separator. -/
def splitOnChar (sep : Char) (s : String) : List String :=
  go s.data []
where
  go : List Char → List Char → List String
    | [], acc => [⟨acc.reverse⟩]
    | c :: rest, acc => if c = sep then ⟨acc.reverse⟩ :: go rest [] else go rest (c :: acc)

/-- Code-point lexicographic comparison, as Python's `<=` on `str`
(the order used by `sorted`). -/
def listLe : List Char → List Char → Bool
  | [], _ => true
  | _ :: _, [] => false
  | a :: as, b :: bs => if a < b then true else if b < a then false else listLe as bs

/-- Python string `<=`. -/
def strLe (a b : String) : Bool := listLe a.data b.data

/-- Assoc-list lookup, modelling Python `dict` read access. -/
def lookupAssoc {α : Type} : List (String × α) → String → Option α
  | [], _ => none
  | (k', v) :: rest, k => if k' = k then some v else lookupAssoc rest k

/-- Assoc-list overwrite-or-append, modelling Python `dict` assignment. -/
def setAssoc {α : Type} : List (String × α) → String → α → List (String × α)
  | [], k, v => [(k, v)]
  | (k', v') :: rest, k, v =>
    if k' = k then (k, v) :: rest else (k', v') :: setAssoc rest k v

/-- Increment a counter in a str→int dict (`dict.get(k, 0) + 1` pattern). -/
def bumpUsage : List (String × Nat) → String → List (String × Nat)
  | [], k => [(k, 1)]
  | (k', n) :: rest, k =>
    if k' = k then (k', n + 1) :: rest else (k', n) :: bumpUsage rest k

/-- Add an element to a Python `set` modelled as a duplicate-free list. -/
def addSet (l : List String) (x : String) : List String :=
  if l.contains x then l else l ++ [x]

/-- `"  " * indent`. -/
def indentStr : Nat → String
  | 0 => ""
  | n + 1 => "  " ++ indentStr n

/-- `RELASSIGN = True`: allow relative assignment in lua, e.g. `x += 1`. -/
def RELASSIGN : Bool := true

def is_id (s : String) : Bool :=
  match s.data with
  | [] => false
  | c :: rest => (c.isAlpha || c = '_') && rest.all (fun d => d.isAlphanum || d = '_')

def sanitize_varname (varname : String) : String :=
  if is_id varname then varname
  else "_G[\"" ++ pyReplace varname "\"" "\\\"" ++ "\"]"

/-- Value stored in the `[PTL]` extension config: `commentconfigure`
normalizes the literals `0`/`False`/`false` to boolean false. -/
inductive PtlVal where
  | fls
  | strv (s : String)
deriving DecidableEq, Repr

/-- The transpilation context (`class PulpScriptContext`).  `tile_ids` is a
module-level table in the source, populated by the driver and only read
here; it is carried as a read-only field.  `root_evobj`, `self_evnames`,
`comments_block` and `blocks`-related state are attributes the source
assigns dynamically before use; blocks themselves are inlined into the AST. -/
structure PulpScriptContext where
  indent : Nat
  errors : List String
  vars : List String
  var_usage : List (String × Nat)
  full_mimics : List (String × String × String)
  funccache : List (List String)
  evobjs : List String
  ext_pdxinfo : List (String × String)
  ext_ptl : List (String × PtlVal)
  script_tags : List (String × String × String)
  root_evobj : String
  self_evnames : List String
  comments_block : List String
  tile_ids : List (String × Int)
deriving Repr

namespace PulpScriptContext

/-- `PulpScriptContext.__init__` (with empty placeholders for the
dynamically assigned attributes). -/
def init : PulpScriptContext :=
  { indent := 1, errors := [], vars := [], var_usage := [], full_mimics := []
    funccache := [], evobjs := [], ext_pdxinfo := [], ext_ptl := []
    script_tags := [], root_evobj := "", self_evnames := [], comments_block := []
    tile_ids := [] }

def push_funccache (ctx : PulpScriptContext) : PulpScriptContext :=
  { ctx with funccache := [] :: ctx.funccache }

def pop_funccache (ctx : PulpScriptContext) : PulpScriptContext :=
  { ctx with funccache := ctx.funccache.tail }

def get_funccache (ctx : PulpScriptContext) : List String :=
  ctx.funccache.headD []

/-- `ctx.get_funccache().add(line)`.  The source raises on an empty stack;
this is modelled as a no-op (the stack is never empty on any reachable
call). -/
def cacheAdd (ctx : PulpScriptContext) (line : String) : PulpScriptContext :=
  match ctx.funccache with
  | [] => ctx
  | f :: r => { ctx with funccache := addSet f line :: r }

def push_evobj (ctx : PulpScriptContext) (obj : String) : PulpScriptContext :=
  { ctx with evobjs := obj :: ctx.evobjs }

def pop_evobj (ctx : PulpScriptContext) : PulpScriptContext :=
  { ctx with evobjs := ctx.evobjs.tail }

/-- `ctx.get_evobj()`; the source raises on an empty stack, modelled with a
default that is never reached on well-formed flows. -/
def get_evobj (ctx : PulpScriptContext) : String :=
  ctx.evobjs.headD ""

def add_script_tag (ctx : PulpScriptContext) (scriptsrc name : String) :
    String × PulpScriptContext :=
  let san_name := "__OPTTAG__" ++
    pyReplace (pyReplace (scriptsrc ++ "_" ++ name) "-" "_") " " "_"
  if (lookupAssoc ctx.script_tags san_name).isSome then (san_name, ctx)
  else (san_name, { ctx with script_tags := ctx.script_tags ++ [(san_name, scriptsrc, name)] })

def pingvar (ctx : PulpScriptContext) (varname : String) : String × PulpScriptContext :=
  if strContains varname '.' then
    -- ignore these.
    (varname, ctx)
  else if pyStartsWith varname "__PTLE_" then
    -- ignore pulp-to-lua extension variables
    (varname, ctx)
  else
    let ctx := { ctx with var_usage := bumpUsage ctx.var_usage varname }
    -- to prevent namespace conflicts, additional underscores are prepended
    -- if the variable name starts with two underscores.
    let varname := if pyStartsWith varname "__" then "__" ++ varname else varname
    let varname := sanitize_varname varname
    (varname, { ctx with vars := addSet ctx.vars varname })

/-- get-indent. -/
def gi (ctx : PulpScriptContext) : String := indentStr ctx.indent

/-- `commentconfigure`; the source's tuple unpacking of `conf.split("=")`
raises unless there is exactly one `=`, modelled as a no-op in other cases. -/
def commentconfigure (ctx : PulpScriptContext) (mode conf : String) : PulpScriptContext :=
  match splitOnChar '=' conf with
  | [key, value] =>
    let key := pyStrip key
    let value := pyStrip value
    let ctx :=
      if mode = "PTL" then
        let v : PtlVal :=
          if value = "0" || value = "False" || value = "false" then .fls else .strv value
        { ctx with ext_ptl := setAssoc ctx.ext_ptl key v }
      else ctx
    if mode = "PDXINFO" then { ctx with ext_pdxinfo := setAssoc ctx.ext_pdxinfo key value }
    else ctx
  | _ => ctx

end PulpScriptContext

def compdict : List (String × String) :=
  [("lt", "<"), ("lte", "<="), ("gt", ">"), ("gte", ">="), ("eq", "=="), ("neq", "~=")]

def funclist : List String :=
  ["goto", "shake", "fin", "hide", "draw", "bpm", "sound", "invert", "frame",
   "fill", "swap", "label", "restore", "store", "toss", "wait", "say", "ask",
   "menu", "option", "act", "loop", "once", "stop", "tell", "ignore", "listen",
   "log", "dump", "wait", "window", "crop", "play"]

/-- functions which can be used in expressions -/
def exfuncs : List String :=
  ["type", "id", "solid", "frame", "floor", "round", "ceil", "invert", "name",
   "random", "sine", "cosine", "tangent", "degrees", "radians", "lpad", "rpad"]

def inlinefuncs : List (String × String) :=
  [("__fn_frame", "{0}.frame = {1}"),
   ("__fn_inc", "{0} += 1"),
   ("__fn_dec", "{0} -= 1"),
   ("__fn_log", "__print({0})"),
   ("__fn_fill", "__setcolour(__fillcolours[{4}]); __fillrect({0} * __pix8scale, {1} * __pix8scale, {2} * __pix8scale, {3} * __pix8scale)"),
   ("__ex_frame", "({0}.frame or 0)"),
   ("__ex_invert", "(__pulp.invert and 1 or 0)"),
   ("__ex_degrees", "({0} * 360 / __tau)"),
   ("__ex_radians", "({0} * __tau / 360)")]

/-- specifies the order of the *first* arguments to these functions. -/
def funcargs : List (String × List String) :=
  [("frame", ["actor"]),
   ("goto", ["x", "y"]),
   ("tell", ["event", "evname", "block"]),
   ("swap", ["actor"]),
   ("label", ["x", "y", "len", "lines"]),
   ("draw", ["x", "y"]),
   ("solid", ["x", "y"]),
   ("wait", ["actor", "event", "evname", "block"]),
   ("say", ["x", "y", "w", "h", "actor", "event", "evname", "block"]),
   ("ask", ["x", "y", "w", "h", "actor", "event", "evname", "block"]),
   ("menu", ["x", "y", "w", "h", "actor", "event", "evname", "block"]),
   ("option", ["actor", "event", "evname", "block"]),
   ("window", ["x", "y", "w", "h"]),
   ("fill", ["x", "y", "w", "h"]),
   ("crop", ["x", "y", "w", "h"]),
   ("play", ["actor", "event", "evname", "block"]),
   ("once", ["actor", "event", "evname", "block"]),
   ("type", ["x", "y"]),
   ("id", ["x", "y"])]

/-- `staticfuncs`; the source's dict literal lists the `sine` key twice with
the same value, which dict construction collapses. -/
def staticfuncs : List (String × String) :=
  [("floor", "__floor"), ("ceil", "__ceil"), ("round", "__round"),
   ("sine", "__sin"), ("cosine", "__cos"), ("tangent", "__tan"),
   ("random", "__random")]

/-- adds backslashes -/
def escape_string (s : String) : String :=
  pyReplace (pyReplace (pyReplace (pyReplace s "\\" "\\\\") "\n" "\\n") "\x0c" "\\f") "\"" "\\\""

/-- note that a dot is valid in a token, but not an id.  The Python version
first checks `type(s) != str`; in this embedding the function is applied to
strings only, and `istokenE` below handles the non-string expression case. -/
def istoken (s : String) : Bool :=
  if strContains s ' ' then false
  else if strContains s '-' then false
  else if s.data.length = 0 then false
  else if strContains "0123456789" (s.data.headD ' ') then false
  else true

/-- `remap_special_varname`: these require special caching behaviour
per-function; note that they cannot be set (op_set).  The source's if/elif
chain lists `datetime.day` twice; the second arm is dead and transcribed
here as the same nested conditional. -/
def remap_special_varname (varname : String) (ctx : PulpScriptContext) :
    String × PulpScriptContext :=
  if varname = "event.px" then
    ("__event_px", ctx.cacheAdd "local __event_px = __pulp.player.x")
  else if varname = "event.py" then
    ("__event_py", ctx.cacheAdd "local __event_py = __pulp.player.y")
  else if varname = "event.x" then
    ("__event_x", ctx.cacheAdd "local __event_x = __actor.x or __pulp.player.x")
  else if varname = "event.y" then
    ("__event_y", ctx.cacheAdd "local __event_y = __actor.y or __pulp.player.y")
  else if varname = "event.dx" then
    ("__event_dx", ctx.cacheAdd "local __event_dx = event.dx or 0")
  else if varname = "event.dy" then
    ("__event_dy", ctx.cacheAdd "local __event_dy = event.dy or 0")
  else if varname = "event.tile" then
    ("__event_tile", ctx.cacheAdd "local __event_tile = __actor.name or 0")
  else if varname = "event.room" then ("event.room.name", ctx)
  else if varname = "event.player" then ("__pulp.player.name", ctx)
  else if varname = "datetime.year" then ("__getTime().year", ctx)
  else if varname = "datetime.year99" then ("--[[(year99)]] (__getTime().year % 100)", ctx)
  else if varname = "datetime.month" then ("__getTime().month", ctx)
  else if varname = "datetime.day" then ("__getTime().day", ctx)
  else if varname = "datetime.weekday" then ("(__getTime().weekday - 1)", ctx)
  else if varname = "datetime.day" then ("__getTime().day", ctx)
  else if varname = "datetime.hour" then ("__getTime().hour", ctx)
  else if varname = "datetime.hour12" then ("--[[(hour12)]] ((__getTime().hour % 12) + 1)", ctx)
  else if varname = "datetime.minute" then ("__getTime().minute", ctx)
  else if varname = "datetime.second" then ("__getTime().second", ctx)
  else if varname = "datetime.millisecond" then
    ("__getTime().millisecond --[[(PTL-only?)]]", ctx)
  else if varname = "datetime.ampm" then
    ("--[[(ampm)]] (__getTime().hour < 12 and \"am\" or \"pm\")", ctx)
  else if varname = "datetime.AMPM" then
    ("--[[(AMPM)]] (__getTime().hour < 12 and \"AM\" or \"PM\")  --[[(PTL-only?)]]", ctx)
  else if varname = "datetime.timestamp" then ("__getSecondsSinceEpoch()", ctx)
  else if varname = "__PTLE_SMOOTH_MOVEMENT_SPEED" then ("__pulp.PTLE_SMOOTH_MOVEMENT_SPEED", ctx)
  else if varname = "__PTLE_SMOOTH_OFFSET_X" then ("__pulp.PTLE_SMOOTH_OFFSET_X", ctx)
  else if varname = "__PTLE_SMOOTH_OFFSET_Y" then ("__pulp.PTLE_SMOOTH_OFFSET_Y", ctx)
  else if varname = "__PTLE_CONFIRM_DAS" then ("__pulp.PTLE_CONFIRM_DAS", ctx)
  else if varname = "__PTLE_CANCEL_DAS" then ("__pulp.PTLE_CANCEL_DAS", ctx)
  else if varname = "__PTLE_V_DAS" then ("__pulp.PTLE_V_DAS", ctx)
  else if varname = "__PTLE_H_DAS" then ("__pulp.PTLE_H_DAS", ctx)
  else (varname, ctx)

/-
The AST, inlining the source's flat block table: a `block` node carries
its command list directly.  Command nodes are Python lists whose head is a
tag string; expression operands that `opex_func` inspects structurally
(`xy`/`rect`/`block` shapes) are distinguished as `Arg`s.  A Python block
entry that is not a list (skipped by `transpile_commands`, and the only
thing that stops the tag scan of `get_next_cmds_tags`) is `Cmd.nonList`.
-/
mutual
inductive Expr where
  | str (s : String)
  | num (n : Int)
  | nil
  | get (name : String)
  | optimizedId (id : Int) (name : String)
  | format (parts : List Expr)
  | embed (e : Expr)
  | nameEx (args : List Arg)
  | exfunc (fn : String) (args : List Arg)
  | block (body : List Cmd)

inductive Arg where
  | xy (x y : Expr)
  | rect (x y w : Expr) (h : Option Expr)
  | blockArg (body : List Cmd)
  | plain (e : Expr)

inductive Cond where
  | mk (comp : String) (lhs rhs : Expr)

inductive Followup where
  | elseifF (cond : Cond) (body : List Cmd) (subs : List Followup)
  | elseF (body : List Cmd)

inductive Cmd where
  | nop
  | done
  | set (name : String) (rv : Expr)
  | add (name : String) (rv : Expr)
  | sub (name : String) (rv : Expr)
  | div (name : String) (rv : Expr)
  | mul (name : String) (rv : Expr)
  | inc (name : String)
  | dec (name : String)
  | random1 (e : Expr)
  | random2 (a b : Expr)
  | ifC (cond : Cond) (body : List Cmd) (subs : List Followup)
  | whileC (cond : Cond) (body : List Cmd) (subs : List Followup)
  | call (target : Expr)
  | emit (e : Expr)
  | mimic (target : Expr)
  | tell (args : List Arg)
  | func (op : String) (args : List Arg)
  | comment (idx : Nat) (inline : Bool)
  | nonList
end

/-- `istoken` applied to a command operand that may not be a string
(`type(s) != str` yields `False`). -/
def istokenE : Expr → Bool
  | .str s => istoken s
  | _ => false

/-- Is this block entry a Python list (i.e. a real command node)? -/
def isList : Cmd → Bool
  | .nonList => false
  | _ => true

/-- `tile_ids` membership test used by `optimize_name_ref`'s boolean result. -/
def name_ref_hit (tileIds : List (String × Int)) : Expr → Bool
  | .str s => (lookupAssoc tileIds s).isSome
  | _ => false

/-- `optimize_name_ref(cmd, idx)` rewrites a known tile-name string operand
in place to an `optimized-id` marker.  The in-place mutation is modelled by
applying this pure rewrite wherever the source later observes the node. -/
def optimize_name_ref (tileIds : List (String × Int)) : Expr → Expr
  | .str s =>
    match lookupAssoc tileIds s with
    | some id => .optimizedId id s
    | none => .str s
  | e => e

/-- `optimize_name_ref(cmd, 1)` inside `op_tell`'s generic branch: the first
operand of the tell command is rewritten if it is a known tile-name string. -/
def tell_optimize (tileIds : List (String × Int)) : List Arg → List Arg
  | .plain e :: rest => .plain (optimize_name_ref tileIds e) :: rest
  | args => args

/-- `ex_get`. -/
def ex_get (name : String) (ctx : PulpScriptContext) : String × PulpScriptContext :=
  let (v, ctx) := ctx.pingvar name
  remap_special_varname v ctx

/-
Size measures used for the termination of the mutual transpiler.  Leaf
expressions all have size 1 so that the `optimize_name_ref` rewrite
(string leaf ↦ optimized-id leaf) preserves the measure.
-/
mutual
def Expr.msize : Expr → Nat
  | .str _ => 1
  | .num _ => 1
  | .nil => 1
  | .get _ => 1
  | .optimizedId _ _ => 1
  | .format ps => 1 + msizeExprs ps
  | .embed e => 1 + e.msize
  | .nameEx as => 1 + msizeArgs as
  | .exfunc _ as => 1 + msizeArgs as
  | .block cs => 1 + msizeCmds cs

def msizeExprs : List Expr → Nat
  | [] => 0
  | e :: r => 1 + e.msize + msizeExprs r

def Arg.msize : Arg → Nat
  | .xy x y => 1 + x.msize + y.msize
  | .rect x y w h => 1 + x.msize + y.msize + w.msize + msizeOptExpr h
  | .blockArg b => 1 + msizeCmds b
  | .plain e => 1 + e.msize

def msizeOptExpr : Option Expr → Nat
  | none => 0
  | some e => e.msize

def msizeArgs : List Arg → Nat
  | [] => 0
  | a :: r => 1 + a.msize + msizeArgs r

def Cond.msize : Cond → Nat
  | .mk _ l r => 1 + l.msize + r.msize

def Followup.msize : Followup → Nat
  | .elseifF c b s => 1 + c.msize + msizeCmds b + msizeFollowups s
  | .elseF b => 1 + msizeCmds b

def msizeFollowups : List Followup → Nat
  | [] => 0
  | f :: r => 1 + f.msize + msizeFollowups r

def Cmd.msize : Cmd → Nat
  | .nop => 1
  | .done => 1
  | .set _ e => 1 + e.msize
  | .add _ e => 1 + e.msize
  | .sub _ e => 1 + e.msize
  | .div _ e => 1 + e.msize
  | .mul _ e => 1 + e.msize
  | .inc _ => 1
  | .dec _ => 1
  | .random1 e => 1 + e.msize
  | .random2 a b => 1 + a.msize + b.msize
  | .ifC c b s => 1 + c.msize + msizeCmds b + msizeFollowups s
  | .whileC c b s => 1 + c.msize + msizeCmds b + msizeFollowups s
  | .call t => 1 + t.msize
  | .emit t => 1 + t.msize
  | .mimic t => 1 + t.msize
  | .tell as => 1 + msizeArgs as
  | .func _ as => 1 + msizeArgs as
  | .comment _ _ => 1
  | .nonList => 1

def msizeCmds : List Cmd → Nat
  | [] => 0
  | c :: r => 1 + c.msize + msizeCmds r
end

/-- `condition[0]` of a comparison triple. -/
def Cond.comparison : Cond → String
  | .mk c _ _ => c

/-- `condition[1]` of a comparison triple. -/
def Cond.lhs : Cond → Expr
  | .mk _ l _ => l

/-- `condition[2]` of a comparison triple. -/
def Cond.rhs : Cond → Expr
  | .mk _ _ r => r

theorem Cond.msize_parts (c : Cond) : c.msize = 1 + c.lhs.msize + c.rhs.msize := by
  cases c
  rfl

theorem msize_optimize_name_ref (tileIds : List (String × Int)) (e : Expr) :
    (optimize_name_ref tileIds e).msize = e.msize := by
  cases e <;> simp [optimize_name_ref, Expr.msize]
  split <;> simp [Expr.msize]

theorem msizeArgs_tell_optimize (tileIds : List (String × Int)) (args : List Arg) :
    msizeArgs (tell_optimize tileIds args) = msizeArgs args := by
  cases args with
  | nil => rfl
  | cons a rest =>
    cases a <;>
      simp [tell_optimize, msizeArgs, Arg.msize, msize_optimize_name_ref]

/-- `comment(cmd, prevline, ctx)`: render a comment command; recognizes the
`[LUA]` raw-passthrough marker and the `[PDXINFO]`/`[PTL]` configuration
directives.  `idx` is `cmd[1]`, `prevline` is `cmd[0] == "#$"`. -/
def comment_text (idx : Nat) (prevline : Bool) (ctx : PulpScriptContext) :
    String × PulpScriptContext :=
  let s := "--"
  let cmt := if idx < ctx.comments_block.length then ctx.comments_block.getD idx ""
             else "<comment missing>"
  let s := if strContains cmt '\n' then s ++ "[[" else s
  -- PTL extension: raw LUA code.
  let stripcomment := pyStrip cmt
  if pyStartsWith stripcomment "[LUA]" then
    let s := strDrop stripcomment 5
    let s := if pyStartsWith s " " then strDrop s 1 else s
    (s, ctx)
  else
    -- PTL extension: PDXINFO/PTL
    let ctx := if pyStartsWith stripcomment "[PDXINFO]" then
        ctx.commentconfigure "PDXINFO" (pyStrip (strDrop stripcomment 9))
      else ctx
    let ctx := if pyStartsWith stripcomment "[PTL]" then
        ctx.commentconfigure "PTL" (pyStrip (strDrop stripcomment 5))
      else ctx
    let s := if prevline then s ++ "^" else s
    let s := s ++ cmt
    let s := if strContains cmt '\n' then s ++ "]]" else s
    (s, ctx)

/-- `get_next_cmds_tags`: scan the upcoming sibling entries for bracketed
comment tags.  Exactly as in the source, the scan stops only at a non-list
entry; a list entry that is not a comment does not stop it. -/
def get_next_cmds_tags (ctx : PulpScriptContext) : List Cmd → List String
  | [] => []
  | c :: rest =>
    if isList c then
      (match c with
       | .comment idx _ =>
         if idx < ctx.comments_block.length then
           let cmt := pyStrip (ctx.comments_block.getD idx "")
           if pyStartsWith cmt "[" then [cmt] else []
         else []
       | _ => []) ++ get_next_cmds_tags ctx rest
    else []

/-- `op_inc` (also used for `dec`): the raw lvalue concatenated with the
operator text, with no sanitization or bookkeeping. -/
def op_inc (name : String) (operator : String) : String := name ++ operator

/-- The argument-joining loop shared by the second and third tiers of
`opex_func` (`first` flag plus `", "` separators). -/
def argloop (s0 : String) (main : List String) : String :=
  (main.foldl (fun p arg => (p.1 ++ (if p.2 then arg else ", " ++ arg), false)) (s0, true)).1

/-- The inline-template substitution loop of `opex_func`:
`s.replace("{i}", mainargs[i])` for each index in order. -/
def substTemplate (tmpl : String) (main : List String) : String :=
  (main.enum).foldl (fun s p => pyReplace s ("\x7b" ++ toString p.1 ++ "\x7d") p.2) tmpl

/-- The `setargs` padding loop of `opex_func`: walk the declared argument
order in reverse, prepending the named slot or `nil`. -/
def opex_pad (names : List String) (setargs : List (String × String))
    (main : List String) : List String :=
  names.reverse.foldl
    (fun m a => (match lookupAssoc setargs a with | some v => v | none => "nil") :: m) main

/-- One iteration of the `for tag in tags` loop at the end of `op_call`:
a `[SCRIPT:...]` tag replaces the callee with a synthesized dispatch-tag
identifier and notes the tag in the trailing comment. -/
def script_tag_step (fnstr : String) (acc : String × String × PulpScriptContext)
    (tag : String) : String × String × PulpScriptContext :=
  let (fnbase, comment, ctx) := acc
  if pyStartsWith tag "[SCRIPT:" then
    let scriptsrc := strDropLast (strDrop tag 8)
    let (san, ctx) := ctx.add_script_tag scriptsrc (strMid fnstr)
    (san, comment ++ " " ++ tag, ctx)
  else (fnbase, comment, ctx)

/-- The tail of `op_call` after `fnstr`/`callfn` are built: fallback-to-any
wrapping, `[DIRECT]` handling, the `__self` static-name simplification, and
`[SCRIPT:...]` rerouting.  `tok` is `some s` when `istoken(cmd[1])` held. -/
def op_call_rest (fnstr callfn : String) (tok : Option String) (tags : List String)
    (ctx : PulpScriptContext) : String × PulpScriptContext :=
  let fnbase := ";(" ++ callfn ++ " or " ++ ctx.get_evobj ++ ".any)"
  let comment := "--[call \"" ++ strMid fnstr ++ "\"]"
  let (fnbase, comment) :=
    if tags.contains "[DIRECT]" then (callfn, comment ++ " [DIRECT]")
    else (fnbase, comment)
  let (fnbase, comment, ctx) :=
    if ctx.get_evobj = "__self" then
      let ctx := ctx.cacheAdd ("local __self = " ++ ctx.root_evobj ++ " --[this script]")
      -- simplification if the name of the function is known
      match tok with
      | some s =>
        if ctx.self_evnames.contains s then (callfn, "", ctx)
        else ("__self.any", comment ++ " [doesn't exist, so any]", ctx)
      | none => (fnbase, comment, ctx)
    else (fnbase, comment, ctx)
  let (fnbase, comment, ctx) := tags.foldl (script_tag_step fnstr) (fnbase, comment, ctx)
  (fnbase ++ "(__actor, event, " ++ fnstr ++ ") " ++ comment, ctx)

set_option maxHeartbeats 2000000
set_option linter.unreachableTactic false
set_option linter.unusedTactic false

mutual
/-- `decode_rvalue`.  Python `float` literals are conflated with `int` in
`Expr.num`; the transpiler renders both with `str(...)`. -/
def decode_rvalue (expression : Expr) (ctx : PulpScriptContext) :
    String × PulpScriptContext :=
  match expression with
  | .str s => ("\"" ++ escape_string s ++ "\"", ctx)
  | .num n => (toString n, ctx)
  | .nil => ("nil", ctx)
  | .get name => ex_get name ctx
  | .optimizedId id name => ("--[[(" ++ name ++ ")]] " ++ toString id, ctx)
  | .format parts => ex_format_loop parts "" true ctx
  | .embed e =>
    let (s, ctx) := decode_rvalue e ctx
    ("__pulp.__ex_embed(" ++ s ++ ")", ctx)
  | .nameEx args => ex_name args ctx
  | .exfunc fn args =>
    if exfuncs.contains fn then opex_func args fn "__ex_" ctx
    else ("nil --[[unknown expression code '" ++ fn ++ "']]",
          { ctx with errors := ctx.errors ++ ["unknown expression code: " ++ fn] })
  | .block body => ex_subroutine body ctx
termination_by 16 * expression.msize + 0
decreasing_by all_goals (first | (simp only [Expr.msize, Arg.msize, Cmd.msize, Cond.msize, Followup.msize, msizeExprs, msizeArgs, msizeCmds, msizeFollowups, msizeOptExpr, msize_optimize_name_ref, msizeArgs_tell_optimize]; omega) | (simp [Expr.msize, Arg.msize, Cmd.msize, Cond.msize, Followup.msize, msizeExprs, msizeArgs, msizeCmds, msizeFollowups, msizeOptExpr, msize_optimize_name_ref, msizeArgs_tell_optimize]; omega) | (simp [Expr.msize, Arg.msize, Cmd.msize, Cond.msize, Followup.msize, msizeExprs, msizeArgs, msizeCmds, msizeFollowups, msizeOptExpr, msize_optimize_name_ref, msizeArgs_tell_optimize]) | omega)

/-- The loop of `ex_format`. -/
def ex_format_loop (parts : List Expr) (s : String) (first : Bool)
    (ctx : PulpScriptContext) : String × PulpScriptContext :=
  match parts with
  | [] => (s, ctx)
  | component :: rest =>
    let s := if first then s else s ++ " .. "
    match component with
    | .str sv =>
      let (cs, ctx) := decode_rvalue (.str sv) ctx
      ex_format_loop rest (s ++ cs) false ctx
    | cother =>
      let (cs, ctx) := decode_rvalue cother ctx
      ex_format_loop rest (s ++ "__tostring(" ++ cs ++ ")") false ctx
termination_by 16 * msizeExprs parts + 0
decreasing_by all_goals (first | (simp only [Expr.msize, Arg.msize, Cmd.msize, Cond.msize, Followup.msize, msizeExprs, msizeArgs, msizeCmds, msizeFollowups, msizeOptExpr, msize_optimize_name_ref, msizeArgs_tell_optimize]; omega) | (simp [Expr.msize, Arg.msize, Cmd.msize, Cond.msize, Followup.msize, msizeExprs, msizeArgs, msizeCmds, msizeFollowups, msizeOptExpr, msize_optimize_name_ref, msizeArgs_tell_optimize]; omega) | (simp [Expr.msize, Arg.msize, Cmd.msize, Cond.msize, Followup.msize, msizeExprs, msizeArgs, msizeCmds, msizeFollowups, msizeOptExpr, msize_optimize_name_ref, msizeArgs_tell_optimize]) | omega)

/-- `ex_subroutine`: compile an inline block as an anonymous function. -/
def ex_subroutine (body : List Cmd) (ctx : PulpScriptContext) :
    String × PulpScriptContext :=
  let s := "function(__actor, event, evname)\n"
  let ctx := { ctx with indent := ctx.indent + 2 }
  let (bs, ctx) := transpile_commands body ctx true
  let ctx := { ctx with indent := ctx.indent - 2 }
  (s ++ bs ++ ctx.gi ++ "  end", ctx)
termination_by 16 * msizeCmds body + 3
decreasing_by all_goals (first | (simp only [Expr.msize, Arg.msize, Cmd.msize, Cond.msize, Followup.msize, msizeExprs, msizeArgs, msizeCmds, msizeFollowups, msizeOptExpr, msize_optimize_name_ref, msizeArgs_tell_optimize]; omega) | (simp [Expr.msize, Arg.msize, Cmd.msize, Cond.msize, Followup.msize, msizeExprs, msizeArgs, msizeCmds, msizeFollowups, msizeOptExpr, msize_optimize_name_ref, msizeArgs_tell_optimize]; omega) | (simp [Expr.msize, Arg.msize, Cmd.msize, Cond.msize, Followup.msize, msizeExprs, msizeArgs, msizeCmds, msizeFollowups, msizeOptExpr, msize_optimize_name_ref, msizeArgs_tell_optimize]) | omega)

/-- `ex_name`. -/
def ex_name (args : List Arg) (ctx : PulpScriptContext) : String × PulpScriptContext :=
  match args with
  | .xy x y :: _ =>
    let (xs, ctx) := decode_rvalue x ctx
    let (ys, ctx) := decode_rvalue y ctx
    ("__roomtiles[" ++ ys ++ "][" ++ xs ++ "].name", ctx)
  | nother => opex_func nother "name" "__ex_" ctx
termination_by 16 * msizeArgs args + 2
decreasing_by all_goals (first | (simp only [Expr.msize, Arg.msize, Cmd.msize, Cond.msize, Followup.msize, msizeExprs, msizeArgs, msizeCmds, msizeFollowups, msizeOptExpr, msize_optimize_name_ref, msizeArgs_tell_optimize]; omega) | (simp [Expr.msize, Arg.msize, Cmd.msize, Cond.msize, Followup.msize, msizeExprs, msizeArgs, msizeCmds, msizeFollowups, msizeOptExpr, msize_optimize_name_ref, msizeArgs_tell_optimize]; omega) | (simp [Expr.msize, Arg.msize, Cmd.msize, Cond.msize, Followup.msize, msizeExprs, msizeArgs, msizeCmds, msizeFollowups, msizeOptExpr, msize_optimize_name_ref, msizeArgs_tell_optimize]) | omega)

/-- The argument-marshalling loop at the head of `opex_func`; `main` and
`setargs` are the accumulators. -/
def opex_collect (args : List Arg) (main : List String)
    (setargs : List (String × String)) (ctx : PulpScriptContext) :
    List String × List (String × String) × PulpScriptContext :=
  match args with
  | [] => (main, setargs, ctx)
  | .xy x y :: rest =>
    let (xs, ctx) := decode_rvalue x ctx
    let (ys, ctx) := decode_rvalue y ctx
    opex_collect rest main (setAssoc (setAssoc setargs "x" xs) "y" ys) ctx
  | .rect x y w h :: rest =>
    let (xs, ctx) := decode_rvalue x ctx
    let (ys, ctx) := decode_rvalue y ctx
    let (ws, ctx) := decode_rvalue w ctx
    let setargs := setAssoc (setAssoc (setAssoc setargs "x" xs) "y" ys) "w" ws
    -- pulp game 'Monitor Duty' needs this guard
    (match h with
     | some he =>
       let (hs, ctx) := decode_rvalue he ctx
       opex_collect rest main (setAssoc setargs "h" hs) ctx
     | none => opex_collect rest main setargs ctx)
  | .blockArg body :: rest =>
    -- e.g. "then" or "to"
    let (bs, ctx) := ex_subroutine body ctx
    opex_collect rest main (setAssoc setargs "block" bs) ctx
  | .plain e :: rest =>
    let (es, ctx) := decode_rvalue e ctx
    opex_collect rest (main ++ [es]) setargs ctx
termination_by 16 * msizeArgs args + 0
decreasing_by all_goals (first | (simp only [Expr.msize, Arg.msize, Cmd.msize, Cond.msize, Followup.msize, msizeExprs, msizeArgs, msizeCmds, msizeFollowups, msizeOptExpr, msize_optimize_name_ref, msizeArgs_tell_optimize]; omega) | (simp [Expr.msize, Arg.msize, Cmd.msize, Cond.msize, Followup.msize, msizeExprs, msizeArgs, msizeCmds, msizeFollowups, msizeOptExpr, msize_optimize_name_ref, msizeArgs_tell_optimize]; omega) | (simp [Expr.msize, Arg.msize, Cmd.msize, Cond.msize, Followup.msize, msizeExprs, msizeArgs, msizeCmds, msizeFollowups, msizeOptExpr, msize_optimize_name_ref, msizeArgs_tell_optimize]) | omega)

/-- `opex_func`: marshal arguments, pad with the declared order, then the
three resolution tiers (inline template / static builtin / generic
runtime-namespace call). -/
def opex_func (args : List Arg) (op pre : String) (ctx : PulpScriptContext) :
    String × PulpScriptContext :=
  let (mainargs, setargs, ctx) := opex_collect args []
    [("actor", "__actor"), ("event", "event"), ("evname", "__evname")] ctx
  let mainargs :=
    match lookupAssoc funcargs op with
    | some names => opex_pad names setargs mainargs
    | none => mainargs
  match lookupAssoc inlinefuncs (pre ++ op) with
  | some tmpl => (substTemplate tmpl mainargs, ctx)
  | none =>
    let s :=
      match lookupAssoc staticfuncs op with
      | some f => f ++ "("
      | none => "__pulp." ++ pre ++ op ++ "("
    (argloop s mainargs ++ ")", ctx)
termination_by 16 * msizeArgs args + 1
decreasing_by all_goals (first | (simp only [Expr.msize, Arg.msize, Cmd.msize, Cond.msize, Followup.msize, msizeExprs, msizeArgs, msizeCmds, msizeFollowups, msizeOptExpr, msize_optimize_name_ref, msizeArgs_tell_optimize]; omega) | (simp [Expr.msize, Arg.msize, Cmd.msize, Cond.msize, Followup.msize, msizeExprs, msizeArgs, msizeCmds, msizeFollowups, msizeOptExpr, msize_optimize_name_ref, msizeArgs_tell_optimize]; omega) | (simp [Expr.msize, Arg.msize, Cmd.msize, Cond.msize, Followup.msize, msizeExprs, msizeArgs, msizeCmds, msizeFollowups, msizeOptExpr, msize_optimize_name_ref, msizeArgs_tell_optimize]) | omega)

/-- `op_set` (shared by set/add/sub/div/mul via `operator`). -/
def op_set (name : String) (rv : Expr) (operator : String)
    (ctx : PulpScriptContext) : String × PulpScriptContext :=
  let (lvalue, ctx) := ctx.pingvar name
  let (rvalue, ctx) := decode_rvalue rv ctx
  if operator = "" || RELASSIGN then
    (lvalue ++ " " ++ operator ++ "= " ++ rvalue, ctx)
  else
    (lvalue ++ " = " ++ lvalue ++ " " ++ operator ++ " " ++ rvalue, ctx)
termination_by 16 * (1 + rv.msize) + 5
decreasing_by all_goals (first | (simp only [Expr.msize, Arg.msize, Cmd.msize, Cond.msize, Followup.msize, msizeExprs, msizeArgs, msizeCmds, msizeFollowups, msizeOptExpr, msize_optimize_name_ref, msizeArgs_tell_optimize]; omega) | (simp [Expr.msize, Arg.msize, Cmd.msize, Cond.msize, Followup.msize, msizeExprs, msizeArgs, msizeCmds, msizeFollowups, msizeOptExpr, msize_optimize_name_ref, msizeArgs_tell_optimize]; omega) | (simp [Expr.msize, Arg.msize, Cmd.msize, Cond.msize, Followup.msize, msizeExprs, msizeArgs, msizeCmds, msizeFollowups, msizeOptExpr, msize_optimize_name_ref, msizeArgs_tell_optimize]) | omega)

/-- `op_random`.  The source asserts on any other argument count. -/
def op_random (c : Cmd) (ctx : PulpScriptContext) : String × PulpScriptContext :=
  match c with
  | .random1 e =>
    let (es, ctx) := decode_rvalue e ctx
    ("__random(" ++ es ++ ")", ctx)
  | .random2 a b =>
    let (a1, ctx) := decode_rvalue a ctx
    let (b1, ctx) := decode_rvalue b ctx
    ("__random(" ++ a1 ++ ", " ++ b1 ++ ")", ctx)
  | _ => ("", ctx)
termination_by 16 * c.msize + 5
decreasing_by all_goals (first | (simp only [Expr.msize, Arg.msize, Cmd.msize, Cond.msize, Followup.msize, msizeExprs, msizeArgs, msizeCmds, msizeFollowups, msizeOptExpr, msize_optimize_name_ref, msizeArgs_tell_optimize]; omega) | (simp [Expr.msize, Arg.msize, Cmd.msize, Cond.msize, Followup.msize, msizeExprs, msizeArgs, msizeCmds, msizeFollowups, msizeOptExpr, msize_optimize_name_ref, msizeArgs_tell_optimize]; omega) | (simp [Expr.msize, Arg.msize, Cmd.msize, Cond.msize, Followup.msize, msizeExprs, msizeArgs, msizeCmds, msizeFollowups, msizeOptExpr, msize_optimize_name_ref, msizeArgs_tell_optimize]) | omega)

/-- `op_block` (if/while/elseif).  The source asserts that the comparison
operator is known and that the body payload is a block; the former is a
fatal front-end contract violation, transcribed as a defaulted lookup. -/
def op_block (cond : Cond) (blockBody : List Cmd) (subs : List Followup)
    (statement follow : String) (endkw : Option String) (ctx : PulpScriptContext) :
    String × PulpScriptContext :=
  let compsym := (lookupAssoc compdict cond.comparison).getD ""
  let pl :=
    match hl : cond.lhs with
    | .str ls =>
      if istoken ls then
        let pv := ctx.pingvar ls
        remap_special_varname pv.1 pv.2
      else decode_rvalue (.str ls) ctx
    | lother => decode_rvalue lother ctx
  let s := statement ++ " " ++ pl.1 ++ " " ++ compsym ++ " "
  let pr := decode_rvalue cond.rhs pl.2
  let s := s ++ pr.1 ++ " " ++ follow ++ "\n"
  let pb := transpile_commands blockBody { pr.2 with indent := pr.2.indent + 1 } false
  let s := s ++ pb.1
  let pf := op_followups subs { pb.2 with indent := pb.2.indent - 1 }
  let s := s ++ pf.1
  let etail := match endkw with | some e => pf.2.gi ++ e | none => ""
  (s ++ etail, pf.2)
termination_by 16 * (1 + cond.msize + msizeCmds blockBody + msizeFollowups subs) + 5
decreasing_by all_goals (first | (simp_all only [Expr.msize, Arg.msize, Cmd.msize, Cond.msize, Cond.msize_parts, Followup.msize, msizeExprs, msizeArgs, msizeCmds, msizeFollowups, msizeOptExpr, msize_optimize_name_ref, msizeArgs_tell_optimize]; omega) | (simp_all [Expr.msize, Arg.msize, Cmd.msize, Cond.msize, Cond.msize_parts, Followup.msize, msizeExprs, msizeArgs, msizeCmds, msizeFollowups, msizeOptExpr, msize_optimize_name_ref, msizeArgs_tell_optimize]; omega) | (simp_all [Expr.msize, Arg.msize, Cmd.msize, Cond.msize, Cond.msize_parts, Followup.msize, msizeExprs, msizeArgs, msizeCmds, msizeFollowups, msizeOptExpr, msize_optimize_name_ref, msizeArgs_tell_optimize]) | omega)

/-- The `for sub in cmd[3:]` loop of `op_block`. -/
def op_followups (subs : List Followup) (ctx : PulpScriptContext) :
    String × PulpScriptContext :=
  match subs with
  | [] => ("", ctx)
  | .elseifF c b s2 :: rest =>
    let g := ctx.gi
    let (bs, ctx) := op_block c b s2 "elseif" "then" none ctx
    let (fs, ctx) := op_followups rest ctx
    (g ++ bs ++ fs, ctx)
  | .elseF b :: rest =>
    let s := ctx.gi ++ "else\n"
    let ctx := { ctx with indent := ctx.indent + 1 }
    let (bs, ctx) := transpile_commands b ctx false
    let ctx := { ctx with indent := ctx.indent - 1 }
    let (fs, ctx) := op_followups rest ctx
    (s ++ bs ++ fs, ctx)
termination_by 16 * msizeFollowups subs + 6
decreasing_by all_goals (first | (simp only [Expr.msize, Arg.msize, Cmd.msize, Cond.msize, Followup.msize, msizeExprs, msizeArgs, msizeCmds, msizeFollowups, msizeOptExpr, msize_optimize_name_ref, msizeArgs_tell_optimize]; omega) | (simp [Expr.msize, Arg.msize, Cmd.msize, Cond.msize, Followup.msize, msizeExprs, msizeArgs, msizeCmds, msizeFollowups, msizeOptExpr, msize_optimize_name_ref, msizeArgs_tell_optimize]; omega) | (simp [Expr.msize, Arg.msize, Cmd.msize, Cond.msize, Followup.msize, msizeExprs, msizeArgs, msizeCmds, msizeFollowups, msizeOptExpr, msize_optimize_name_ref, msizeArgs_tell_optimize]) | omega)

/-- `op_call`.  The `__self` comment in the source: mimic calls do not call
back virtually to the original actor's script, hence the `__self` alias. -/
def op_call (target : Expr) (tags : List String) (ctx : PulpScriptContext) :
    String × PulpScriptContext :=
  match target with
  | .str s =>
    if istoken s then
      op_call_rest ("\"" ++ s ++ "\"") (ctx.get_evobj ++ "." ++ s) (some s) tags ctx
    else
      let (fnstr, ctx) := decode_rvalue (.str s) ctx
      op_call_rest fnstr (ctx.get_evobj ++ "[" ++ fnstr ++ "]") none tags ctx
  | tother =>
    let (fnstr, ctx) := decode_rvalue tother ctx
    op_call_rest fnstr (ctx.get_evobj ++ "[" ++ fnstr ++ "]") none tags ctx
termination_by 16 * (1 + target.msize) + 5
decreasing_by all_goals (first | (simp only [Expr.msize, Arg.msize, Cmd.msize, Cond.msize, Followup.msize, msizeExprs, msizeArgs, msizeCmds, msizeFollowups, msizeOptExpr, msize_optimize_name_ref, msizeArgs_tell_optimize]; omega) | (simp [Expr.msize, Arg.msize, Cmd.msize, Cond.msize, Followup.msize, msizeExprs, msizeArgs, msizeCmds, msizeFollowups, msizeOptExpr, msize_optimize_name_ref, msizeArgs_tell_optimize]; omega) | (simp [Expr.msize, Arg.msize, Cmd.msize, Cond.msize, Followup.msize, msizeExprs, msizeArgs, msizeCmds, msizeFollowups, msizeOptExpr, msize_optimize_name_ref, msizeArgs_tell_optimize]) | omega)

/-- `op_emit`. -/
def op_emit (e : Expr) (ctx : PulpScriptContext) : String × PulpScriptContext :=
  let (es, ctx) := decode_rvalue e ctx
  ("__pulp:emit(" ++ es ++ ", event)", ctx)
termination_by 16 * (1 + e.msize) + 5
decreasing_by all_goals (first | (simp only [Expr.msize, Arg.msize, Cmd.msize, Cond.msize, Followup.msize, msizeExprs, msizeArgs, msizeCmds, msizeFollowups, msizeOptExpr, msize_optimize_name_ref, msizeArgs_tell_optimize]; omega) | (simp [Expr.msize, Arg.msize, Cmd.msize, Cond.msize, Followup.msize, msizeExprs, msizeArgs, msizeCmds, msizeFollowups, msizeOptExpr, msize_optimize_name_ref, msizeArgs_tell_optimize]; omega) | (simp [Expr.msize, Arg.msize, Cmd.msize, Cond.msize, Followup.msize, msizeExprs, msizeArgs, msizeCmds, msizeFollowups, msizeOptExpr, msize_optimize_name_ref, msizeArgs_tell_optimize]) | omega)

/-- `op_mimic`.  The in-place `optimize_name_ref(cmd, 1)` is modelled by
decoding the rewritten node in the fast path. -/
def op_mimic (target : Expr) (ctx : PulpScriptContext) : String × PulpScriptContext :=
  if name_ref_hit ctx.tile_ids target ||
      (match target with | .num _ => true | _ => false) then
    let s := "do -- (mimic)\n"
    let ctx := { ctx with indent := ctx.indent + 1 }
    let g := ctx.gi
    let (ds, ctx) := decode_rvalue (optimize_name_ref ctx.tile_ids target) ctx
    let s := s ++ g ++ "local __mimic_target__ = (__pulp.tiles[" ++ ds ++ "] or __pulp.EMPTY).script;\n"
    let s := s ++ ctx.gi ++ "(__mimic_target__[__evname] or __mimic_target__.any)(__actor, event, __evname)\n"
    let ctx := { ctx with indent := ctx.indent - 1 }
    (s ++ ctx.gi ++ "end", ctx)
  else
    let s := "do -- (mimic)\n"
    let ctx := { ctx with indent := ctx.indent + 1 }
    let g := ctx.gi
    let (ds, ctx) := decode_rvalue target ctx
    let s := s ++ g ++ "local __mimic_target__ = __pulp:getScript(" ++ ds ++ ") or __pulp.EMPTY;\n"
    let s := s ++ ctx.gi ++ "(__mimic_target__[__evname] or __mimic_target__.any)(__actor, event, __evname)\n"
    let ctx := { ctx with indent := ctx.indent - 1 }
    (s ++ ctx.gi ++ "end", ctx)
termination_by 16 * (1 + target.msize) + 5
decreasing_by all_goals (first | (simp only [Expr.msize, Arg.msize, Cmd.msize, Cond.msize, Followup.msize, msizeExprs, msizeArgs, msizeCmds, msizeFollowups, msizeOptExpr, msize_optimize_name_ref, msizeArgs_tell_optimize]; omega) | (simp [Expr.msize, Arg.msize, Cmd.msize, Cond.msize, Followup.msize, msizeExprs, msizeArgs, msizeCmds, msizeFollowups, msizeOptExpr, msize_optimize_name_ref, msizeArgs_tell_optimize]; omega) | (simp [Expr.msize, Arg.msize, Cmd.msize, Cond.msize, Followup.msize, msizeExprs, msizeArgs, msizeCmds, msizeFollowups, msizeOptExpr, msize_optimize_name_ref, msizeArgs_tell_optimize]) | omega)

/-- The generic branch of `op_tell`: optimize the first operand, switch the
dispatch object, and route through `opex_func`. -/
def op_tell_generic (args : List Arg) (ctx : PulpScriptContext) :
    String × PulpScriptContext :=
  let args := tell_optimize ctx.tile_ids args
  let ctx := ctx.push_evobj "__actor.script"
  let (s, ctx) := opex_func args "tell" "__fn_" ctx
  (s, ctx.pop_evobj)
termination_by 16 * msizeArgs args + 2
decreasing_by all_goals (first | (simp only [Expr.msize, Arg.msize, Cmd.msize, Cond.msize, Followup.msize, msizeExprs, msizeArgs, msizeCmds, msizeFollowups, msizeOptExpr, msize_optimize_name_ref, msizeArgs_tell_optimize]; omega) | (simp [Expr.msize, Arg.msize, Cmd.msize, Cond.msize, Followup.msize, msizeExprs, msizeArgs, msizeCmds, msizeFollowups, msizeOptExpr, msize_optimize_name_ref, msizeArgs_tell_optimize]; omega) | (simp [Expr.msize, Arg.msize, Cmd.msize, Cond.msize, Followup.msize, msizeExprs, msizeArgs, msizeCmds, msizeFollowups, msizeOptExpr, msize_optimize_name_ref, msizeArgs_tell_optimize]) | omega)

/-- `op_tell`.  The coordinate and implicit-target forms require a block
payload (an assertion in the source); shapes that would trip that fatal
assertion fall through to the generic branch here. -/
def op_tell (args : List Arg) (ctx : PulpScriptContext) : String × PulpScriptContext :=
  match args with
  | .xy x y :: .blockArg body :: _ =>
    -- inline version of 'tell x,y to'
    let s := "do --[tell x,y to]\n"
    let ctx := { ctx with indent := ctx.indent + 1 }
    let g := ctx.gi
    let (ys, ctx) := decode_rvalue y ctx
    let (xs, ctx) := decode_rvalue x ctx
    let s := s ++ g ++ "local __actor = __roomtiles[" ++ ys ++ "][" ++ xs ++ "]\n"
    let s := s ++ ctx.gi ++ "if __actor and __actor.tile then\n"
    let ctx := { ctx with indent := ctx.indent + 1 }
    let ctx := ctx.push_evobj "__actor.script"
    let (bs, ctx) := transpile_commands body ctx true
    let ctx := ctx.pop_evobj
    let ctx := { ctx with indent := ctx.indent - 1 }
    let s := s ++ bs ++ ctx.gi ++ "end\n"
    let ctx := { ctx with indent := ctx.indent - 1 }
    (s ++ ctx.gi ++ "end\n", ctx)
  | .plain (.get name) :: rest =>
    if name = "event.room" || name = "event.game" || name = "event.player" then
      match rest with
      | .blockArg body :: _ =>
        -- inline version of 'tell event.X to'
        let target := if name = "event.player" then "__pulp.player" else name
        let s := "do --[tell " ++ target ++ " to]\n"
        let ctx := { ctx with indent := ctx.indent + 1 }
        let s := s ++ ctx.gi ++ "local __actor = " ++ target ++ "\n"
        let s := s ++ ctx.gi ++ "if __actor then\n"
        let ctx := { ctx with indent := ctx.indent + 1 }
        let ctx := ctx.push_evobj "__actor.script"
        let (bs, ctx) := transpile_commands body ctx true
        let ctx := ctx.pop_evobj
        let ctx := { ctx with indent := ctx.indent - 1 }
        let s := s ++ bs ++ ctx.gi ++ "end\n"
        let ctx := { ctx with indent := ctx.indent - 1 }
        (s ++ ctx.gi ++ "end\n", ctx)
      | r2 => op_tell_generic (.plain (.get name) :: r2) ctx
    else op_tell_generic (.plain (.get name) :: rest) ctx
  | aother => op_tell_generic aother ctx
termination_by 16 * (1 + msizeArgs args) + 7
decreasing_by all_goals (first | (simp only [Expr.msize, Arg.msize, Cmd.msize, Cond.msize, Followup.msize, msizeExprs, msizeArgs, msizeCmds, msizeFollowups, msizeOptExpr, msize_optimize_name_ref, msizeArgs_tell_optimize]; omega) | (simp [Expr.msize, Arg.msize, Cmd.msize, Cond.msize, Followup.msize, msizeExprs, msizeArgs, msizeCmds, msizeFollowups, msizeOptExpr, msize_optimize_name_ref, msizeArgs_tell_optimize]; omega) | (simp [Expr.msize, Arg.msize, Cmd.msize, Cond.msize, Followup.msize, msizeExprs, msizeArgs, msizeCmds, msizeFollowups, msizeOptExpr, msize_optimize_name_ref, msizeArgs_tell_optimize]) | omega)

/-- `transpile_command`: per-tag dispatch. -/
def transpile_command (cmd : Cmd) (next_cmds : List Cmd) (ctx : PulpScriptContext) :
    String × PulpScriptContext :=
  let tags := get_next_cmds_tags ctx next_cmds
  match cmd with
  | .nop => ("", ctx)
  | .done => (ctx.gi ++ "do return end\n", ctx)
  | .set n rv =>
    let g := ctx.gi
    let (s, ctx) := op_set n rv "" ctx
    (g ++ s ++ "\n", ctx)
  | .add n rv =>
    let g := ctx.gi
    let (s, ctx) := op_set n rv "+" ctx
    (g ++ s ++ "\n", ctx)
  | .sub n rv =>
    let g := ctx.gi
    let (s, ctx) := op_set n rv "-" ctx
    (g ++ s ++ "\n", ctx)
  | .div n rv =>
    let g := ctx.gi
    let (s, ctx) := op_set n rv "/" ctx
    (g ++ s ++ "\n", ctx)
  | .mul n rv =>
    let g := ctx.gi
    let (s, ctx) := op_set n rv "*" ctx
    (g ++ s ++ "\n", ctx)
  | .inc n => (ctx.gi ++ op_inc n "+=1" ++ "\n", ctx)
  | .dec n => (ctx.gi ++ op_inc n "-=1" ++ "\n", ctx)
  | .random1 e =>
    let g := ctx.gi
    let (s, ctx) := op_random (.random1 e) ctx
    (g ++ s ++ "\n", ctx)
  | .random2 a b =>
    let g := ctx.gi
    let (s, ctx) := op_random (.random2 a b) ctx
    (g ++ s ++ "\n", ctx)
  | .ifC c b s2 =>
    let g := ctx.gi
    let (s, ctx) := op_block c b s2 "if" "then" (some "end") ctx
    (g ++ s ++ "\n", ctx)
  | .whileC c b s2 =>
    let g := ctx.gi
    let (s, ctx) := op_block c b s2 "while" "do" (some "end") ctx
    (g ++ s ++ "\n", ctx)
  | .call t =>
    let g := ctx.gi
    let (s, ctx) := op_call t tags ctx
    (g ++ s ++ "\n", ctx)
  | .emit e =>
    let g := ctx.gi
    let (s, ctx) := op_emit e ctx
    (g ++ s ++ "\n", ctx)
  | .mimic t =>
    let g := ctx.gi
    let (s, ctx) := op_mimic t ctx
    (g ++ s ++ "\n", ctx)
  | .tell args2 =>
    let g := ctx.gi
    let (s, ctx) := op_tell args2 ctx
    (g ++ s ++ "\n", ctx)
  | .func fop args2 =>
    if funclist.contains fop then
      let g := ctx.gi
      let (s, ctx) := opex_func args2 fop "__fn_" ctx
      (g ++ s ++ "\n", ctx)
    else
      (ctx.gi ++ "--unknown command code '" ++ fop ++ "'\n",
       { ctx with errors := ctx.errors ++ ["unknown command code: " ++ fop] })
  | .comment idx inl =>
    let g := ctx.gi
    let (s, ctx) := comment_text idx inl ctx
    (g ++ s ++ "\n", ctx)
  | .nonList => ("", ctx)
termination_by 16 * cmd.msize + 10
decreasing_by all_goals (first | (simp only [Expr.msize, Arg.msize, Cmd.msize, Cond.msize, Followup.msize, msizeExprs, msizeArgs, msizeCmds, msizeFollowups, msizeOptExpr, msize_optimize_name_ref, msizeArgs_tell_optimize]; omega) | (simp [Expr.msize, Arg.msize, Cmd.msize, Cond.msize, Followup.msize, msizeExprs, msizeArgs, msizeCmds, msizeFollowups, msizeOptExpr, msize_optimize_name_ref, msizeArgs_tell_optimize]; omega) | (simp [Expr.msize, Arg.msize, Cmd.msize, Cond.msize, Followup.msize, msizeExprs, msizeArgs, msizeCmds, msizeFollowups, msizeOptExpr, msize_optimize_name_ref, msizeArgs_tell_optimize]) | omega)

/-- The `for i in range(len(commands))` loop of `transpile_commands`:
non-list entries are skipped; each command sees the remaining entries as
`next_cmds` for the tag scan. -/
def transpile_list (commands : List Cmd) (ctx : PulpScriptContext) :
    String × PulpScriptContext :=
  match commands with
  | [] => ("", ctx)
  | command :: rest =>
    if isList command then
      let (s, ctx) := transpile_command command rest ctx
      let (s2, ctx) := transpile_list rest ctx
      (s ++ s2, ctx)
    else
      transpile_list rest ctx
termination_by 16 * msizeCmds commands + 1
decreasing_by all_goals (first | (simp only [Expr.msize, Arg.msize, Cmd.msize, Cond.msize, Followup.msize, msizeExprs, msizeArgs, msizeCmds, msizeFollowups, msizeOptExpr, msize_optimize_name_ref, msizeArgs_tell_optimize]; omega) | (simp [Expr.msize, Arg.msize, Cmd.msize, Cond.msize, Followup.msize, msizeExprs, msizeArgs, msizeCmds, msizeFollowups, msizeOptExpr, msize_optimize_name_ref, msizeArgs_tell_optimize]; omega) | (simp [Expr.msize, Arg.msize, Cmd.msize, Cond.msize, Followup.msize, msizeExprs, msizeArgs, msizeCmds, msizeFollowups, msizeOptExpr, msize_optimize_name_ref, msizeArgs_tell_optimize]) | omega)

/-- `transpile_commands`: optionally open a function cache frame; after the
body, flush the frame's accumulated one-time local bindings — sorting them,
then prepending each in turn ahead of the body text — and pop the frame. -/
def transpile_commands (commands : List Cmd) (ctx : PulpScriptContext)
    (has_funccache : Bool) : String × PulpScriptContext :=
  let ctx := if has_funccache then ctx.push_funccache else ctx
  let (s, ctx) := transpile_list commands ctx
  if has_funccache then
    let s := (List.insertionSort (fun a b => strLe a b = true) ctx.get_funccache).foldl
      (fun acc cached => ctx.gi ++ cached ++ "\n" ++ acc) s
    (s, ctx.pop_funccache)
  else (s, ctx)
termination_by 16 * msizeCmds commands + 2
decreasing_by all_goals (first | (simp only [Expr.msize, Arg.msize, Cmd.msize, Cond.msize, Followup.msize, msizeExprs, msizeArgs, msizeCmds, msizeFollowups, msizeOptExpr, msize_optimize_name_ref, msizeArgs_tell_optimize]; omega) | (simp [Expr.msize, Arg.msize, Cmd.msize, Cond.msize, Followup.msize, msizeExprs, msizeArgs, msizeCmds, msizeFollowups, msizeOptExpr, msize_optimize_name_ref, msizeArgs_tell_optimize]; omega) | (simp [Expr.msize, Arg.msize, Cmd.msize, Cond.msize, Followup.msize, msizeExprs, msizeArgs, msizeCmds, msizeFollowups, msizeOptExpr, msize_optimize_name_ref, msizeArgs_tell_optimize]) | omega)
end

/-- `transpile_event`: compile one top-level handler into a function
assigned on the owner's script object, then apply the one-line-only mimic
optimization.  The source inspects the block again after compiling it, at
which point `op_mimic` has rewritten a known tile-name target in place;
the rewrite is re-applied here to model that mutation. -/
def transpile_event (evobj evname : String) (body : List Cmd) (evobjname : String)
    (comments_block : List String) (evnames : List String) (ctx : PulpScriptContext) :
    String × PulpScriptContext :=
  let _evobj := "__pulp:getScript(\"" ++ evobj ++ "\")"
  let s := if istoken evname then
      _evobj ++ "." ++ evname ++ " = function(__actor, event, __evname)\n"
    else
      _evobj ++ "[\"" ++ evname ++ "\"] = function(__actor, event, __evname)\n"
  let ctx := { ctx with self_evnames := evnames, comments_block := comments_block }
  let ctx := ctx.push_evobj "__self"
  let ctx := { ctx with root_evobj := if evobjname = "" then _evobj else evobjname }
  let (cmdstr, ctx) := transpile_commands body ctx true
  let ctx := ctx.pop_evobj
  let s := s ++ cmdstr ++ "end\n"
  -- optimization for one-line-only mimics
  let undecorated_block := body.filter (fun x => isList x &&
    !(match x with | .nop => true | .comment _ _ => true | _ => false))
  match undecorated_block with
  | [onecmd] =>
    (match onecmd with
     | .mimic mtarget =>
       match optimize_name_ref ctx.tile_ids mtarget with
       | .optimizedId _ mname =>
         (s, { ctx with full_mimics := ctx.full_mimics ++ [(evobj, evname, mname)] })
       | _ => (s, ctx)
     | _ => (s, ctx))
  | _ => (s, ctx)

/-- The stack-shape and side-table facts that every transpiler function
preserves: cache-frame stack depth, the exact dispatch-object stack, the
delegation-record list, the (read-only) tile table, and the indent level. -/
def CtxP (a b : PulpScriptContext) : Prop :=
  b.funccache.length = a.funccache.length ∧ b.evobjs = a.evobjs ∧
  b.full_mimics = a.full_mimics ∧ b.tile_ids = a.tile_ids ∧ b.indent = a.indent

theorem cacheAdd_snd (ctx : PulpScriptContext) (l : String) :
    (ctx.cacheAdd l).funccache.length = ctx.funccache.length ∧
    (ctx.cacheAdd l).evobjs = ctx.evobjs ∧
    (ctx.cacheAdd l).full_mimics = ctx.full_mimics ∧
    (ctx.cacheAdd l).tile_ids = ctx.tile_ids ∧
    (ctx.cacheAdd l).indent = ctx.indent := by
  unfold PulpScriptContext.cacheAdd
  split <;> simp_all

theorem pingvar_snd (ctx : PulpScriptContext) (n : String) :
    ((ctx.pingvar n).2).funccache = ctx.funccache ∧
    ((ctx.pingvar n).2).evobjs = ctx.evobjs ∧
    ((ctx.pingvar n).2).full_mimics = ctx.full_mimics ∧
    ((ctx.pingvar n).2).tile_ids = ctx.tile_ids ∧
    ((ctx.pingvar n).2).indent = ctx.indent := by
  unfold PulpScriptContext.pingvar
  split_ifs <;> simp_all

theorem remap_snd (v : String) (ctx : PulpScriptContext) :
    ((remap_special_varname v ctx).2).funccache.length = ctx.funccache.length ∧
    ((remap_special_varname v ctx).2).evobjs = ctx.evobjs ∧
    ((remap_special_varname v ctx).2).full_mimics = ctx.full_mimics ∧
    ((remap_special_varname v ctx).2).tile_ids = ctx.tile_ids ∧
    ((remap_special_varname v ctx).2).indent = ctx.indent := by
  unfold remap_special_varname
  by_cases h0 : v = "event.px"
  · simp [h0, cacheAdd_snd]
  simp only [if_neg h0]
  by_cases h1 : v = "event.py"
  · simp [h1, cacheAdd_snd]
  simp only [if_neg h1]
  by_cases h2 : v = "event.x"
  · simp [h2, cacheAdd_snd]
  simp only [if_neg h2]
  by_cases h3 : v = "event.y"
  · simp [h3, cacheAdd_snd]
  simp only [if_neg h3]
  by_cases h4 : v = "event.dx"
  · simp [h4, cacheAdd_snd]
  simp only [if_neg h4]
  by_cases h5 : v = "event.dy"
  · simp [h5, cacheAdd_snd]
  simp only [if_neg h5]
  by_cases h6 : v = "event.tile"
  · simp [h6, cacheAdd_snd]
  simp only [if_neg h6]
  by_cases h7 : v = "event.room"
  · simp [h7, cacheAdd_snd]
  simp only [if_neg h7]
  by_cases h8 : v = "event.player"
  · simp [h8, cacheAdd_snd]
  simp only [if_neg h8]
  by_cases h9 : v = "datetime.year"
  · simp [h9, cacheAdd_snd]
  simp only [if_neg h9]
  by_cases h10 : v = "datetime.year99"
  · simp [h10, cacheAdd_snd]
  simp only [if_neg h10]
  by_cases h11 : v = "datetime.month"
  · simp [h11, cacheAdd_snd]
  simp only [if_neg h11]
  by_cases h12 : v = "datetime.day"
  · simp [h12, cacheAdd_snd]
  simp only [if_neg h12]
  by_cases h13 : v = "datetime.weekday"
  · simp [h13, cacheAdd_snd]
  simp only [if_neg h13]
  by_cases h15 : v = "datetime.hour"
  · simp [h15, cacheAdd_snd]
  simp only [if_neg h15]
  by_cases h16 : v = "datetime.hour12"
  · simp [h16, cacheAdd_snd]
  simp only [if_neg h16]
  by_cases h17 : v = "datetime.minute"
  · simp [h17, cacheAdd_snd]
  simp only [if_neg h17]
  by_cases h18 : v = "datetime.second"
  · simp [h18, cacheAdd_snd]
  simp only [if_neg h18]
  by_cases h19 : v = "datetime.millisecond"
  · simp [h19, cacheAdd_snd]
  simp only [if_neg h19]
  by_cases h20 : v = "datetime.ampm"
  · simp [h20, cacheAdd_snd]
  simp only [if_neg h20]
  by_cases h21 : v = "datetime.AMPM"
  · simp [h21, cacheAdd_snd]
  simp only [if_neg h21]
  by_cases h22 : v = "datetime.timestamp"
  · simp [h22, cacheAdd_snd]
  simp only [if_neg h22]
  by_cases h23 : v = "__PTLE_SMOOTH_MOVEMENT_SPEED"
  · simp [h23, cacheAdd_snd]
  simp only [if_neg h23]
  by_cases h24 : v = "__PTLE_SMOOTH_OFFSET_X"
  · simp [h24, cacheAdd_snd]
  simp only [if_neg h24]
  by_cases h25 : v = "__PTLE_SMOOTH_OFFSET_Y"
  · simp [h25, cacheAdd_snd]
  simp only [if_neg h25]
  by_cases h26 : v = "__PTLE_CONFIRM_DAS"
  · simp [h26, cacheAdd_snd]
  simp only [if_neg h26]
  by_cases h27 : v = "__PTLE_CANCEL_DAS"
  · simp [h27, cacheAdd_snd]
  simp only [if_neg h27]
  by_cases h28 : v = "__PTLE_V_DAS"
  · simp [h28, cacheAdd_snd]
  simp only [if_neg h28]
  by_cases h29 : v = "__PTLE_H_DAS"
  · simp [h29, cacheAdd_snd]
  simp only [if_neg h29]
  and_intros <;> trivial

theorem ex_get_snd (n : String) (ctx : PulpScriptContext) :
    ((ex_get n ctx).2).funccache.length = ctx.funccache.length ∧
    ((ex_get n ctx).2).evobjs = ctx.evobjs ∧
    ((ex_get n ctx).2).full_mimics = ctx.full_mimics ∧
    ((ex_get n ctx).2).tile_ids = ctx.tile_ids ∧
    ((ex_get n ctx).2).indent = ctx.indent := by
  unfold ex_get
  have h1 := pingvar_snd ctx n
  have h2 := remap_snd (ctx.pingvar n).1 (ctx.pingvar n).2
  simp_all

theorem add_script_tag_snd (ctx : PulpScriptContext) (a b : String) :
    ((ctx.add_script_tag a b).2).funccache = ctx.funccache ∧
    ((ctx.add_script_tag a b).2).evobjs = ctx.evobjs ∧
    ((ctx.add_script_tag a b).2).full_mimics = ctx.full_mimics ∧
    ((ctx.add_script_tag a b).2).tile_ids = ctx.tile_ids ∧
    ((ctx.add_script_tag a b).2).indent = ctx.indent := by
  unfold PulpScriptContext.add_script_tag
  dsimp only
  split_ifs <;> simp_all

theorem commentconfigure_snd (ctx : PulpScriptContext) (m c : String) :
    (ctx.commentconfigure m c).funccache = ctx.funccache ∧
    (ctx.commentconfigure m c).evobjs = ctx.evobjs ∧
    (ctx.commentconfigure m c).full_mimics = ctx.full_mimics ∧
    (ctx.commentconfigure m c).tile_ids = ctx.tile_ids ∧
    (ctx.commentconfigure m c).indent = ctx.indent := by
  unfold PulpScriptContext.commentconfigure
  split <;> (try split_ifs) <;> simp_all

theorem comment_text_snd (idx : Nat) (p : Bool) (ctx : PulpScriptContext) :
    ((comment_text idx p ctx).2).funccache = ctx.funccache ∧
    ((comment_text idx p ctx).2).evobjs = ctx.evobjs ∧
    ((comment_text idx p ctx).2).full_mimics = ctx.full_mimics ∧
    ((comment_text idx p ctx).2).tile_ids = ctx.tile_ids ∧
    ((comment_text idx p ctx).2).indent = ctx.indent := by
  unfold comment_text
  generalize (if idx < ctx.comments_block.length then ctx.comments_block.getD idx ""
    else "<comment missing>") = cmt
  by_cases hlua : pyStartsWith (pyStrip cmt) "[LUA]" = true
  · simp [hlua]
  simp only [if_neg hlua]
  by_cases hptl : pyStartsWith (pyStrip cmt) "[PTL]" = true <;>
    by_cases hpdx : pyStartsWith (pyStrip cmt) "[PDXINFO]" = true <;>
    simp_all [commentconfigure_snd]

theorem script_tag_fold_snd (fnstr : String) (tags : List String)
    (acc : String × String × PulpScriptContext) :
    ((tags.foldl (script_tag_step fnstr) acc).2.2).funccache = acc.2.2.funccache ∧
    ((tags.foldl (script_tag_step fnstr) acc).2.2).evobjs = acc.2.2.evobjs ∧
    ((tags.foldl (script_tag_step fnstr) acc).2.2).full_mimics = acc.2.2.full_mimics ∧
    ((tags.foldl (script_tag_step fnstr) acc).2.2).tile_ids = acc.2.2.tile_ids ∧
    ((tags.foldl (script_tag_step fnstr) acc).2.2).indent = acc.2.2.indent := by
  induction tags generalizing acc with
  | nil => simp
  | cons t rest ih =>
    have hstep : ((script_tag_step fnstr acc t).2.2).funccache = acc.2.2.funccache ∧
        ((script_tag_step fnstr acc t).2.2).evobjs = acc.2.2.evobjs ∧
        ((script_tag_step fnstr acc t).2.2).full_mimics = acc.2.2.full_mimics ∧
        ((script_tag_step fnstr acc t).2.2).tile_ids = acc.2.2.tile_ids ∧
        ((script_tag_step fnstr acc t).2.2).indent = acc.2.2.indent := by
      unfold script_tag_step
      split_ifs <;> simp_all [add_script_tag_snd]
    have ih2 := ih (script_tag_step fnstr acc t)
    simp_all

theorem op_call_rest_snd (fnstr callfn : String) (tok : Option String)
    (tags : List String) (ctx : PulpScriptContext) :
    ((op_call_rest fnstr callfn tok tags ctx).2).funccache.length = ctx.funccache.length ∧
    ((op_call_rest fnstr callfn tok tags ctx).2).evobjs = ctx.evobjs ∧
    ((op_call_rest fnstr callfn tok tags ctx).2).full_mimics = ctx.full_mimics ∧
    ((op_call_rest fnstr callfn tok tags ctx).2).tile_ids = ctx.tile_ids ∧
    ((op_call_rest fnstr callfn tok tags ctx).2).indent = ctx.indent := by
  unfold op_call_rest
  rcases tok with _ | s <;> split_ifs <;>
    simp_all [script_tag_fold_snd, cacheAdd_snd]
  all_goals split_ifs <;> simp_all [script_tag_fold_snd, cacheAdd_snd]


set_option maxHeartbeats 2000000 in
/-- Context-shape preservation: every compilation step restores the
function-local-cache stack depth, the dispatch-object stack, the
full-mimic records produced so far are only appended to (here: equal, as
no step inside `transpile_commands` touches them), the tile-id table, and
the indentation level. -/
theorem transpile_commands_ctxP (cmds : List Cmd) (ctx0 : PulpScriptContext) (hf : Bool) :
    CtxP ctx0 (transpile_commands cmds ctx0 hf).2 := by
  apply transpile_commands.induct
    (fun e ctx => CtxP ctx (decode_rvalue e ctx).2)
    (fun b ctx => CtxP ctx (ex_subroutine b ctx).2)
    (fun cs ctx hf => CtxP ctx (transpile_commands cs ctx hf).2)
    (fun cs ctx => CtxP ctx (transpile_list cs ctx).2)
    (fun c nc ctx => CtxP ctx (transpile_command c nc ctx).2)
    (fun as op pre ctx => CtxP ctx (opex_func as op pre ctx).2)
    (fun as m sa ctx => CtxP ctx (opex_collect as m sa ctx).2.2)
    (fun as ctx => CtxP ctx (op_tell as ctx).2)
    (fun as ctx => CtxP ctx (op_tell_generic as ctx).2)
    (fun e ctx => CtxP ctx (op_mimic e ctx).2)
    (fun e ctx => CtxP ctx (op_emit e ctx).2)
    (fun e tg ctx => CtxP ctx (op_call e tg ctx).2)
    (fun c b s st fo ek ctx => CtxP ctx (op_block c b s st fo ek ctx).2)
    (fun su ctx => CtxP ctx (op_followups su ctx).2)
    (fun c ctx => CtxP ctx (op_random c ctx).2)
    (fun n e o ctx => CtxP ctx (op_set n e o ctx).2)
    (fun as ctx => CtxP ctx (ex_name as ctx).2)
    (fun ps s f ctx => CtxP ctx (ex_format_loop ps s f ctx).2)
  case case1 =>
    solve
    | (intros; simp_all [decode_rvalue, CtxP, pingvar_snd, remap_snd, cacheAdd_snd, ex_get_snd, op_call_rest_snd, comment_text_snd, script_tag_fold_snd, add_script_tag_snd, commentconfigure_snd, op_inc, RELASSIGN, PulpScriptContext.push_funccache, PulpScriptContext.pop_funccache, PulpScriptContext.push_evobj, PulpScriptContext.pop_evobj, PulpScriptContext.get_funccache])
    | (intros; simp_all [decode_rvalue, CtxP, pingvar_snd, remap_snd, cacheAdd_snd, ex_get_snd, op_call_rest_snd, comment_text_snd, script_tag_fold_snd, add_script_tag_snd, commentconfigure_snd, op_inc, RELASSIGN, PulpScriptContext.push_funccache, PulpScriptContext.pop_funccache, PulpScriptContext.push_evobj, PulpScriptContext.pop_evobj, PulpScriptContext.get_funccache] <;> omega)
  case case2 =>
    solve
    | (intros; simp_all [decode_rvalue, CtxP, pingvar_snd, remap_snd, cacheAdd_snd, ex_get_snd, op_call_rest_snd, comment_text_snd, script_tag_fold_snd, add_script_tag_snd, commentconfigure_snd, op_inc, RELASSIGN, PulpScriptContext.push_funccache, PulpScriptContext.pop_funccache, PulpScriptContext.push_evobj, PulpScriptContext.pop_evobj, PulpScriptContext.get_funccache])
    | (intros; simp_all [decode_rvalue, CtxP, pingvar_snd, remap_snd, cacheAdd_snd, ex_get_snd, op_call_rest_snd, comment_text_snd, script_tag_fold_snd, add_script_tag_snd, commentconfigure_snd, op_inc, RELASSIGN, PulpScriptContext.push_funccache, PulpScriptContext.pop_funccache, PulpScriptContext.push_evobj, PulpScriptContext.pop_evobj, PulpScriptContext.get_funccache] <;> omega)
  case case3 =>
    solve
    | (intros; simp_all [decode_rvalue, CtxP, pingvar_snd, remap_snd, cacheAdd_snd, ex_get_snd, op_call_rest_snd, comment_text_snd, script_tag_fold_snd, add_script_tag_snd, commentconfigure_snd, op_inc, RELASSIGN, PulpScriptContext.push_funccache, PulpScriptContext.pop_funccache, PulpScriptContext.push_evobj, PulpScriptContext.pop_evobj, PulpScriptContext.get_funccache])
    | (intros; simp_all [decode_rvalue, CtxP, pingvar_snd, remap_snd, cacheAdd_snd, ex_get_snd, op_call_rest_snd, comment_text_snd, script_tag_fold_snd, add_script_tag_snd, commentconfigure_snd, op_inc, RELASSIGN, PulpScriptContext.push_funccache, PulpScriptContext.pop_funccache, PulpScriptContext.push_evobj, PulpScriptContext.pop_evobj, PulpScriptContext.get_funccache] <;> omega)
  case case4 =>
    solve
    | (intros; simp_all [decode_rvalue, CtxP, pingvar_snd, remap_snd, cacheAdd_snd, ex_get_snd, op_call_rest_snd, comment_text_snd, script_tag_fold_snd, add_script_tag_snd, commentconfigure_snd, op_inc, RELASSIGN, PulpScriptContext.push_funccache, PulpScriptContext.pop_funccache, PulpScriptContext.push_evobj, PulpScriptContext.pop_evobj, PulpScriptContext.get_funccache])
    | (intros; simp_all [decode_rvalue, CtxP, pingvar_snd, remap_snd, cacheAdd_snd, ex_get_snd, op_call_rest_snd, comment_text_snd, script_tag_fold_snd, add_script_tag_snd, commentconfigure_snd, op_inc, RELASSIGN, PulpScriptContext.push_funccache, PulpScriptContext.pop_funccache, PulpScriptContext.push_evobj, PulpScriptContext.pop_evobj, PulpScriptContext.get_funccache] <;> omega)
  case case5 =>
    solve
    | (intros; simp_all [decode_rvalue, CtxP, pingvar_snd, remap_snd, cacheAdd_snd, ex_get_snd, op_call_rest_snd, comment_text_snd, script_tag_fold_snd, add_script_tag_snd, commentconfigure_snd, op_inc, RELASSIGN, PulpScriptContext.push_funccache, PulpScriptContext.pop_funccache, PulpScriptContext.push_evobj, PulpScriptContext.pop_evobj, PulpScriptContext.get_funccache])
    | (intros; simp_all [decode_rvalue, CtxP, pingvar_snd, remap_snd, cacheAdd_snd, ex_get_snd, op_call_rest_snd, comment_text_snd, script_tag_fold_snd, add_script_tag_snd, commentconfigure_snd, op_inc, RELASSIGN, PulpScriptContext.push_funccache, PulpScriptContext.pop_funccache, PulpScriptContext.push_evobj, PulpScriptContext.pop_evobj, PulpScriptContext.get_funccache] <;> omega)
  case case6 =>
    solve
    | (intros; simp_all [decode_rvalue, CtxP, pingvar_snd, remap_snd, cacheAdd_snd, ex_get_snd, op_call_rest_snd, comment_text_snd, script_tag_fold_snd, add_script_tag_snd, commentconfigure_snd, op_inc, RELASSIGN, PulpScriptContext.push_funccache, PulpScriptContext.pop_funccache, PulpScriptContext.push_evobj, PulpScriptContext.pop_evobj, PulpScriptContext.get_funccache])
    | (intros; simp_all [decode_rvalue, CtxP, pingvar_snd, remap_snd, cacheAdd_snd, ex_get_snd, op_call_rest_snd, comment_text_snd, script_tag_fold_snd, add_script_tag_snd, commentconfigure_snd, op_inc, RELASSIGN, PulpScriptContext.push_funccache, PulpScriptContext.pop_funccache, PulpScriptContext.push_evobj, PulpScriptContext.pop_evobj, PulpScriptContext.get_funccache] <;> omega)
  case case7 =>
    solve
    | (intros; simp_all [decode_rvalue, CtxP, pingvar_snd, remap_snd, cacheAdd_snd, ex_get_snd, op_call_rest_snd, comment_text_snd, script_tag_fold_snd, add_script_tag_snd, commentconfigure_snd, op_inc, RELASSIGN, PulpScriptContext.push_funccache, PulpScriptContext.pop_funccache, PulpScriptContext.push_evobj, PulpScriptContext.pop_evobj, PulpScriptContext.get_funccache])
    | (intros; simp_all [decode_rvalue, CtxP, pingvar_snd, remap_snd, cacheAdd_snd, ex_get_snd, op_call_rest_snd, comment_text_snd, script_tag_fold_snd, add_script_tag_snd, commentconfigure_snd, op_inc, RELASSIGN, PulpScriptContext.push_funccache, PulpScriptContext.pop_funccache, PulpScriptContext.push_evobj, PulpScriptContext.pop_evobj, PulpScriptContext.get_funccache] <;> omega)
  case case8 =>
    solve
    | (intros; simp_all [decode_rvalue, CtxP, pingvar_snd, remap_snd, cacheAdd_snd, ex_get_snd, op_call_rest_snd, comment_text_snd, script_tag_fold_snd, add_script_tag_snd, commentconfigure_snd, op_inc, RELASSIGN, PulpScriptContext.push_funccache, PulpScriptContext.pop_funccache, PulpScriptContext.push_evobj, PulpScriptContext.pop_evobj, PulpScriptContext.get_funccache])
    | (intros; simp_all [decode_rvalue, CtxP, pingvar_snd, remap_snd, cacheAdd_snd, ex_get_snd, op_call_rest_snd, comment_text_snd, script_tag_fold_snd, add_script_tag_snd, commentconfigure_snd, op_inc, RELASSIGN, PulpScriptContext.push_funccache, PulpScriptContext.pop_funccache, PulpScriptContext.push_evobj, PulpScriptContext.pop_evobj, PulpScriptContext.get_funccache] <;> omega)
  case case9 =>
    solve
    | (intros; simp_all [decode_rvalue, CtxP, pingvar_snd, remap_snd, cacheAdd_snd, ex_get_snd, op_call_rest_snd, comment_text_snd, script_tag_fold_snd, add_script_tag_snd, commentconfigure_snd, op_inc, RELASSIGN, PulpScriptContext.push_funccache, PulpScriptContext.pop_funccache, PulpScriptContext.push_evobj, PulpScriptContext.pop_evobj, PulpScriptContext.get_funccache])
    | (intros; simp_all [decode_rvalue, CtxP, pingvar_snd, remap_snd, cacheAdd_snd, ex_get_snd, op_call_rest_snd, comment_text_snd, script_tag_fold_snd, add_script_tag_snd, commentconfigure_snd, op_inc, RELASSIGN, PulpScriptContext.push_funccache, PulpScriptContext.pop_funccache, PulpScriptContext.push_evobj, PulpScriptContext.pop_evobj, PulpScriptContext.get_funccache] <;> omega)
  case case10 =>
    solve
    | (intros; simp_all [decode_rvalue, CtxP, pingvar_snd, remap_snd, cacheAdd_snd, ex_get_snd, op_call_rest_snd, comment_text_snd, script_tag_fold_snd, add_script_tag_snd, commentconfigure_snd, op_inc, RELASSIGN, PulpScriptContext.push_funccache, PulpScriptContext.pop_funccache, PulpScriptContext.push_evobj, PulpScriptContext.pop_evobj, PulpScriptContext.get_funccache])
    | (intros; simp_all [decode_rvalue, CtxP, pingvar_snd, remap_snd, cacheAdd_snd, ex_get_snd, op_call_rest_snd, comment_text_snd, script_tag_fold_snd, add_script_tag_snd, commentconfigure_snd, op_inc, RELASSIGN, PulpScriptContext.push_funccache, PulpScriptContext.pop_funccache, PulpScriptContext.push_evobj, PulpScriptContext.pop_evobj, PulpScriptContext.get_funccache] <;> omega)
  case case11 =>
    solve
    | (intros; simp_all [decode_rvalue, CtxP, pingvar_snd, remap_snd, cacheAdd_snd, ex_get_snd, op_call_rest_snd, comment_text_snd, script_tag_fold_snd, add_script_tag_snd, commentconfigure_snd, op_inc, RELASSIGN, PulpScriptContext.push_funccache, PulpScriptContext.pop_funccache, PulpScriptContext.push_evobj, PulpScriptContext.pop_evobj, PulpScriptContext.get_funccache])
    | (intros; simp_all [decode_rvalue, CtxP, pingvar_snd, remap_snd, cacheAdd_snd, ex_get_snd, op_call_rest_snd, comment_text_snd, script_tag_fold_snd, add_script_tag_snd, commentconfigure_snd, op_inc, RELASSIGN, PulpScriptContext.push_funccache, PulpScriptContext.pop_funccache, PulpScriptContext.push_evobj, PulpScriptContext.pop_evobj, PulpScriptContext.get_funccache] <;> omega)
  case case12 =>
    solve
    | (intros; simp_all [ex_subroutine, CtxP, pingvar_snd, remap_snd, cacheAdd_snd, ex_get_snd, op_call_rest_snd, comment_text_snd, script_tag_fold_snd, add_script_tag_snd, commentconfigure_snd, op_inc, RELASSIGN, PulpScriptContext.push_funccache, PulpScriptContext.pop_funccache, PulpScriptContext.push_evobj, PulpScriptContext.pop_evobj, PulpScriptContext.get_funccache])
    | (intros; simp_all [ex_subroutine, CtxP, pingvar_snd, remap_snd, cacheAdd_snd, ex_get_snd, op_call_rest_snd, comment_text_snd, script_tag_fold_snd, add_script_tag_snd, commentconfigure_snd, op_inc, RELASSIGN, PulpScriptContext.push_funccache, PulpScriptContext.pop_funccache, PulpScriptContext.push_evobj, PulpScriptContext.pop_evobj, PulpScriptContext.get_funccache] <;> omega)
  case case13 =>
    intro commands c2 v c1 cL x ih1
    have hcl : cL = c2.push_funccache := rfl
    rw [hcl] at x ih1
    rw [x] at ih1
    obtain ⟨h1, h2, h3, h4, h5⟩ := ih1
    simp only [PulpScriptContext.push_funccache] at h1 h2 h3 h4 h5
    simp at h1
    simp [transpile_commands, x, CtxP, PulpScriptContext.pop_funccache, h2, h3, h4, h5] <;> omega
  case case14 =>
    intro commands c2 hfv cL v c1 x hneg ih1
    have hcl : cL = c2 := by unfold_let cL; exact dif_neg hneg
    rw [hcl] at x ih1
    rw [x] at ih1
    obtain ⟨h1, h2, h3, h4, h5⟩ := ih1
    simp at h1 h2 h3 h4 h5
    simp [transpile_commands, hneg, x, CtxP, h1, h2, h3, h4, h5]
  case case15 =>
    solve
    | (intros; simp_all [transpile_list, CtxP, pingvar_snd, remap_snd, cacheAdd_snd, ex_get_snd, op_call_rest_snd, comment_text_snd, script_tag_fold_snd, add_script_tag_snd, commentconfigure_snd, op_inc, RELASSIGN, PulpScriptContext.push_funccache, PulpScriptContext.pop_funccache, PulpScriptContext.push_evobj, PulpScriptContext.pop_evobj, PulpScriptContext.get_funccache])
    | (intros; simp_all [transpile_list, CtxP, pingvar_snd, remap_snd, cacheAdd_snd, ex_get_snd, op_call_rest_snd, comment_text_snd, script_tag_fold_snd, add_script_tag_snd, commentconfigure_snd, op_inc, RELASSIGN, PulpScriptContext.push_funccache, PulpScriptContext.pop_funccache, PulpScriptContext.push_evobj, PulpScriptContext.pop_evobj, PulpScriptContext.get_funccache] <;> omega)
  case case16 =>
    solve
    | (intros; simp_all [transpile_list, CtxP, pingvar_snd, remap_snd, cacheAdd_snd, ex_get_snd, op_call_rest_snd, comment_text_snd, script_tag_fold_snd, add_script_tag_snd, commentconfigure_snd, op_inc, RELASSIGN, PulpScriptContext.push_funccache, PulpScriptContext.pop_funccache, PulpScriptContext.push_evobj, PulpScriptContext.pop_evobj, PulpScriptContext.get_funccache])
    | (intros; simp_all [transpile_list, CtxP, pingvar_snd, remap_snd, cacheAdd_snd, ex_get_snd, op_call_rest_snd, comment_text_snd, script_tag_fold_snd, add_script_tag_snd, commentconfigure_snd, op_inc, RELASSIGN, PulpScriptContext.push_funccache, PulpScriptContext.pop_funccache, PulpScriptContext.push_evobj, PulpScriptContext.pop_evobj, PulpScriptContext.get_funccache] <;> omega)
  case case17 =>
    solve
    | (intros; simp_all [transpile_list, CtxP, pingvar_snd, remap_snd, cacheAdd_snd, ex_get_snd, op_call_rest_snd, comment_text_snd, script_tag_fold_snd, add_script_tag_snd, commentconfigure_snd, op_inc, RELASSIGN, PulpScriptContext.push_funccache, PulpScriptContext.pop_funccache, PulpScriptContext.push_evobj, PulpScriptContext.pop_evobj, PulpScriptContext.get_funccache])
    | (intros; simp_all [transpile_list, CtxP, pingvar_snd, remap_snd, cacheAdd_snd, ex_get_snd, op_call_rest_snd, comment_text_snd, script_tag_fold_snd, add_script_tag_snd, commentconfigure_snd, op_inc, RELASSIGN, PulpScriptContext.push_funccache, PulpScriptContext.pop_funccache, PulpScriptContext.push_evobj, PulpScriptContext.pop_evobj, PulpScriptContext.get_funccache] <;> omega)
  case case18 =>
    solve
    | (intros; simp_all [transpile_command, CtxP, pingvar_snd, remap_snd, cacheAdd_snd, ex_get_snd, op_call_rest_snd, comment_text_snd, script_tag_fold_snd, add_script_tag_snd, commentconfigure_snd, op_inc, RELASSIGN, PulpScriptContext.push_funccache, PulpScriptContext.pop_funccache, PulpScriptContext.push_evobj, PulpScriptContext.pop_evobj, PulpScriptContext.get_funccache])
    | (intros; simp_all [transpile_command, CtxP, pingvar_snd, remap_snd, cacheAdd_snd, ex_get_snd, op_call_rest_snd, comment_text_snd, script_tag_fold_snd, add_script_tag_snd, commentconfigure_snd, op_inc, RELASSIGN, PulpScriptContext.push_funccache, PulpScriptContext.pop_funccache, PulpScriptContext.push_evobj, PulpScriptContext.pop_evobj, PulpScriptContext.get_funccache] <;> omega)
  case case19 =>
    solve
    | (intros; simp_all [transpile_command, CtxP, pingvar_snd, remap_snd, cacheAdd_snd, ex_get_snd, op_call_rest_snd, comment_text_snd, script_tag_fold_snd, add_script_tag_snd, commentconfigure_snd, op_inc, RELASSIGN, PulpScriptContext.push_funccache, PulpScriptContext.pop_funccache, PulpScriptContext.push_evobj, PulpScriptContext.pop_evobj, PulpScriptContext.get_funccache])
    | (intros; simp_all [transpile_command, CtxP, pingvar_snd, remap_snd, cacheAdd_snd, ex_get_snd, op_call_rest_snd, comment_text_snd, script_tag_fold_snd, add_script_tag_snd, commentconfigure_snd, op_inc, RELASSIGN, PulpScriptContext.push_funccache, PulpScriptContext.pop_funccache, PulpScriptContext.push_evobj, PulpScriptContext.pop_evobj, PulpScriptContext.get_funccache] <;> omega)
  case case20 =>
    solve
    | (intros; simp_all [transpile_command, CtxP, pingvar_snd, remap_snd, cacheAdd_snd, ex_get_snd, op_call_rest_snd, comment_text_snd, script_tag_fold_snd, add_script_tag_snd, commentconfigure_snd, op_inc, RELASSIGN, PulpScriptContext.push_funccache, PulpScriptContext.pop_funccache, PulpScriptContext.push_evobj, PulpScriptContext.pop_evobj, PulpScriptContext.get_funccache])
    | (intros; simp_all [transpile_command, CtxP, pingvar_snd, remap_snd, cacheAdd_snd, ex_get_snd, op_call_rest_snd, comment_text_snd, script_tag_fold_snd, add_script_tag_snd, commentconfigure_snd, op_inc, RELASSIGN, PulpScriptContext.push_funccache, PulpScriptContext.pop_funccache, PulpScriptContext.push_evobj, PulpScriptContext.pop_evobj, PulpScriptContext.get_funccache] <;> omega)
  case case21 =>
    solve
    | (intros; simp_all [transpile_command, CtxP, pingvar_snd, remap_snd, cacheAdd_snd, ex_get_snd, op_call_rest_snd, comment_text_snd, script_tag_fold_snd, add_script_tag_snd, commentconfigure_snd, op_inc, RELASSIGN, PulpScriptContext.push_funccache, PulpScriptContext.pop_funccache, PulpScriptContext.push_evobj, PulpScriptContext.pop_evobj, PulpScriptContext.get_funccache])
    | (intros; simp_all [transpile_command, CtxP, pingvar_snd, remap_snd, cacheAdd_snd, ex_get_snd, op_call_rest_snd, comment_text_snd, script_tag_fold_snd, add_script_tag_snd, commentconfigure_snd, op_inc, RELASSIGN, PulpScriptContext.push_funccache, PulpScriptContext.pop_funccache, PulpScriptContext.push_evobj, PulpScriptContext.pop_evobj, PulpScriptContext.get_funccache] <;> omega)
  case case22 =>
    solve
    | (intros; simp_all [transpile_command, CtxP, pingvar_snd, remap_snd, cacheAdd_snd, ex_get_snd, op_call_rest_snd, comment_text_snd, script_tag_fold_snd, add_script_tag_snd, commentconfigure_snd, op_inc, RELASSIGN, PulpScriptContext.push_funccache, PulpScriptContext.pop_funccache, PulpScriptContext.push_evobj, PulpScriptContext.pop_evobj, PulpScriptContext.get_funccache])
    | (intros; simp_all [transpile_command, CtxP, pingvar_snd, remap_snd, cacheAdd_snd, ex_get_snd, op_call_rest_snd, comment_text_snd, script_tag_fold_snd, add_script_tag_snd, commentconfigure_snd, op_inc, RELASSIGN, PulpScriptContext.push_funccache, PulpScriptContext.pop_funccache, PulpScriptContext.push_evobj, PulpScriptContext.pop_evobj, PulpScriptContext.get_funccache] <;> omega)
  case case23 =>
    solve
    | (intros; simp_all [transpile_command, CtxP, pingvar_snd, remap_snd, cacheAdd_snd, ex_get_snd, op_call_rest_snd, comment_text_snd, script_tag_fold_snd, add_script_tag_snd, commentconfigure_snd, op_inc, RELASSIGN, PulpScriptContext.push_funccache, PulpScriptContext.pop_funccache, PulpScriptContext.push_evobj, PulpScriptContext.pop_evobj, PulpScriptContext.get_funccache])
    | (intros; simp_all [transpile_command, CtxP, pingvar_snd, remap_snd, cacheAdd_snd, ex_get_snd, op_call_rest_snd, comment_text_snd, script_tag_fold_snd, add_script_tag_snd, commentconfigure_snd, op_inc, RELASSIGN, PulpScriptContext.push_funccache, PulpScriptContext.pop_funccache, PulpScriptContext.push_evobj, PulpScriptContext.pop_evobj, PulpScriptContext.get_funccache] <;> omega)
  case case24 =>
    solve
    | (intros; simp_all [transpile_command, CtxP, pingvar_snd, remap_snd, cacheAdd_snd, ex_get_snd, op_call_rest_snd, comment_text_snd, script_tag_fold_snd, add_script_tag_snd, commentconfigure_snd, op_inc, RELASSIGN, PulpScriptContext.push_funccache, PulpScriptContext.pop_funccache, PulpScriptContext.push_evobj, PulpScriptContext.pop_evobj, PulpScriptContext.get_funccache])
    | (intros; simp_all [transpile_command, CtxP, pingvar_snd, remap_snd, cacheAdd_snd, ex_get_snd, op_call_rest_snd, comment_text_snd, script_tag_fold_snd, add_script_tag_snd, commentconfigure_snd, op_inc, RELASSIGN, PulpScriptContext.push_funccache, PulpScriptContext.pop_funccache, PulpScriptContext.push_evobj, PulpScriptContext.pop_evobj, PulpScriptContext.get_funccache] <;> omega)
  case case25 =>
    solve
    | (intros; simp_all [transpile_command, CtxP, pingvar_snd, remap_snd, cacheAdd_snd, ex_get_snd, op_call_rest_snd, comment_text_snd, script_tag_fold_snd, add_script_tag_snd, commentconfigure_snd, op_inc, RELASSIGN, PulpScriptContext.push_funccache, PulpScriptContext.pop_funccache, PulpScriptContext.push_evobj, PulpScriptContext.pop_evobj, PulpScriptContext.get_funccache])
    | (intros; simp_all [transpile_command, CtxP, pingvar_snd, remap_snd, cacheAdd_snd, ex_get_snd, op_call_rest_snd, comment_text_snd, script_tag_fold_snd, add_script_tag_snd, commentconfigure_snd, op_inc, RELASSIGN, PulpScriptContext.push_funccache, PulpScriptContext.pop_funccache, PulpScriptContext.push_evobj, PulpScriptContext.pop_evobj, PulpScriptContext.get_funccache] <;> omega)
  case case26 =>
    solve
    | (intros; simp_all [transpile_command, CtxP, pingvar_snd, remap_snd, cacheAdd_snd, ex_get_snd, op_call_rest_snd, comment_text_snd, script_tag_fold_snd, add_script_tag_snd, commentconfigure_snd, op_inc, RELASSIGN, PulpScriptContext.push_funccache, PulpScriptContext.pop_funccache, PulpScriptContext.push_evobj, PulpScriptContext.pop_evobj, PulpScriptContext.get_funccache])
    | (intros; simp_all [transpile_command, CtxP, pingvar_snd, remap_snd, cacheAdd_snd, ex_get_snd, op_call_rest_snd, comment_text_snd, script_tag_fold_snd, add_script_tag_snd, commentconfigure_snd, op_inc, RELASSIGN, PulpScriptContext.push_funccache, PulpScriptContext.pop_funccache, PulpScriptContext.push_evobj, PulpScriptContext.pop_evobj, PulpScriptContext.get_funccache] <;> omega)
  case case27 =>
    solve
    | (intros; simp_all [transpile_command, CtxP, pingvar_snd, remap_snd, cacheAdd_snd, ex_get_snd, op_call_rest_snd, comment_text_snd, script_tag_fold_snd, add_script_tag_snd, commentconfigure_snd, op_inc, RELASSIGN, PulpScriptContext.push_funccache, PulpScriptContext.pop_funccache, PulpScriptContext.push_evobj, PulpScriptContext.pop_evobj, PulpScriptContext.get_funccache])
    | (intros; simp_all [transpile_command, CtxP, pingvar_snd, remap_snd, cacheAdd_snd, ex_get_snd, op_call_rest_snd, comment_text_snd, script_tag_fold_snd, add_script_tag_snd, commentconfigure_snd, op_inc, RELASSIGN, PulpScriptContext.push_funccache, PulpScriptContext.pop_funccache, PulpScriptContext.push_evobj, PulpScriptContext.pop_evobj, PulpScriptContext.get_funccache] <;> omega)
  case case28 =>
    solve
    | (intros; simp_all [transpile_command, CtxP, pingvar_snd, remap_snd, cacheAdd_snd, ex_get_snd, op_call_rest_snd, comment_text_snd, script_tag_fold_snd, add_script_tag_snd, commentconfigure_snd, op_inc, RELASSIGN, PulpScriptContext.push_funccache, PulpScriptContext.pop_funccache, PulpScriptContext.push_evobj, PulpScriptContext.pop_evobj, PulpScriptContext.get_funccache])
    | (intros; simp_all [transpile_command, CtxP, pingvar_snd, remap_snd, cacheAdd_snd, ex_get_snd, op_call_rest_snd, comment_text_snd, script_tag_fold_snd, add_script_tag_snd, commentconfigure_snd, op_inc, RELASSIGN, PulpScriptContext.push_funccache, PulpScriptContext.pop_funccache, PulpScriptContext.push_evobj, PulpScriptContext.pop_evobj, PulpScriptContext.get_funccache] <;> omega)
  case case29 =>
    solve
    | (intros; simp_all [transpile_command, CtxP, pingvar_snd, remap_snd, cacheAdd_snd, ex_get_snd, op_call_rest_snd, comment_text_snd, script_tag_fold_snd, add_script_tag_snd, commentconfigure_snd, op_inc, RELASSIGN, PulpScriptContext.push_funccache, PulpScriptContext.pop_funccache, PulpScriptContext.push_evobj, PulpScriptContext.pop_evobj, PulpScriptContext.get_funccache])
    | (intros; simp_all [transpile_command, CtxP, pingvar_snd, remap_snd, cacheAdd_snd, ex_get_snd, op_call_rest_snd, comment_text_snd, script_tag_fold_snd, add_script_tag_snd, commentconfigure_snd, op_inc, RELASSIGN, PulpScriptContext.push_funccache, PulpScriptContext.pop_funccache, PulpScriptContext.push_evobj, PulpScriptContext.pop_evobj, PulpScriptContext.get_funccache] <;> omega)
  case case30 =>
    solve
    | (intros; simp_all [transpile_command, CtxP, pingvar_snd, remap_snd, cacheAdd_snd, ex_get_snd, op_call_rest_snd, comment_text_snd, script_tag_fold_snd, add_script_tag_snd, commentconfigure_snd, op_inc, RELASSIGN, PulpScriptContext.push_funccache, PulpScriptContext.pop_funccache, PulpScriptContext.push_evobj, PulpScriptContext.pop_evobj, PulpScriptContext.get_funccache])
    | (intros; simp_all [transpile_command, CtxP, pingvar_snd, remap_snd, cacheAdd_snd, ex_get_snd, op_call_rest_snd, comment_text_snd, script_tag_fold_snd, add_script_tag_snd, commentconfigure_snd, op_inc, RELASSIGN, PulpScriptContext.push_funccache, PulpScriptContext.pop_funccache, PulpScriptContext.push_evobj, PulpScriptContext.pop_evobj, PulpScriptContext.get_funccache] <;> omega)
  case case31 =>
    solve
    | (intros; simp_all [transpile_command, CtxP, pingvar_snd, remap_snd, cacheAdd_snd, ex_get_snd, op_call_rest_snd, comment_text_snd, script_tag_fold_snd, add_script_tag_snd, commentconfigure_snd, op_inc, RELASSIGN, PulpScriptContext.push_funccache, PulpScriptContext.pop_funccache, PulpScriptContext.push_evobj, PulpScriptContext.pop_evobj, PulpScriptContext.get_funccache])
    | (intros; simp_all [transpile_command, CtxP, pingvar_snd, remap_snd, cacheAdd_snd, ex_get_snd, op_call_rest_snd, comment_text_snd, script_tag_fold_snd, add_script_tag_snd, commentconfigure_snd, op_inc, RELASSIGN, PulpScriptContext.push_funccache, PulpScriptContext.pop_funccache, PulpScriptContext.push_evobj, PulpScriptContext.pop_evobj, PulpScriptContext.get_funccache] <;> omega)
  case case32 =>
    solve
    | (intros; simp_all [transpile_command, CtxP, pingvar_snd, remap_snd, cacheAdd_snd, ex_get_snd, op_call_rest_snd, comment_text_snd, script_tag_fold_snd, add_script_tag_snd, commentconfigure_snd, op_inc, RELASSIGN, PulpScriptContext.push_funccache, PulpScriptContext.pop_funccache, PulpScriptContext.push_evobj, PulpScriptContext.pop_evobj, PulpScriptContext.get_funccache])
    | (intros; simp_all [transpile_command, CtxP, pingvar_snd, remap_snd, cacheAdd_snd, ex_get_snd, op_call_rest_snd, comment_text_snd, script_tag_fold_snd, add_script_tag_snd, commentconfigure_snd, op_inc, RELASSIGN, PulpScriptContext.push_funccache, PulpScriptContext.pop_funccache, PulpScriptContext.push_evobj, PulpScriptContext.pop_evobj, PulpScriptContext.get_funccache] <;> omega)
  case case33 =>
    solve
    | (intros; simp_all [transpile_command, CtxP, pingvar_snd, remap_snd, cacheAdd_snd, ex_get_snd, op_call_rest_snd, comment_text_snd, script_tag_fold_snd, add_script_tag_snd, commentconfigure_snd, op_inc, RELASSIGN, PulpScriptContext.push_funccache, PulpScriptContext.pop_funccache, PulpScriptContext.push_evobj, PulpScriptContext.pop_evobj, PulpScriptContext.get_funccache])
    | (intros; simp_all [transpile_command, CtxP, pingvar_snd, remap_snd, cacheAdd_snd, ex_get_snd, op_call_rest_snd, comment_text_snd, script_tag_fold_snd, add_script_tag_snd, commentconfigure_snd, op_inc, RELASSIGN, PulpScriptContext.push_funccache, PulpScriptContext.pop_funccache, PulpScriptContext.push_evobj, PulpScriptContext.pop_evobj, PulpScriptContext.get_funccache] <;> omega)
  case case34 =>
    solve
    | (intros; simp_all [transpile_command, CtxP, pingvar_snd, remap_snd, cacheAdd_snd, ex_get_snd, op_call_rest_snd, comment_text_snd, script_tag_fold_snd, add_script_tag_snd, commentconfigure_snd, op_inc, RELASSIGN, PulpScriptContext.push_funccache, PulpScriptContext.pop_funccache, PulpScriptContext.push_evobj, PulpScriptContext.pop_evobj, PulpScriptContext.get_funccache])
    | (intros; simp_all [transpile_command, CtxP, pingvar_snd, remap_snd, cacheAdd_snd, ex_get_snd, op_call_rest_snd, comment_text_snd, script_tag_fold_snd, add_script_tag_snd, commentconfigure_snd, op_inc, RELASSIGN, PulpScriptContext.push_funccache, PulpScriptContext.pop_funccache, PulpScriptContext.push_evobj, PulpScriptContext.pop_evobj, PulpScriptContext.get_funccache] <;> omega)
  case case35 =>
    solve
    | (intros; simp_all [transpile_command, CtxP, pingvar_snd, remap_snd, cacheAdd_snd, ex_get_snd, op_call_rest_snd, comment_text_snd, script_tag_fold_snd, add_script_tag_snd, commentconfigure_snd, op_inc, RELASSIGN, PulpScriptContext.push_funccache, PulpScriptContext.pop_funccache, PulpScriptContext.push_evobj, PulpScriptContext.pop_evobj, PulpScriptContext.get_funccache])
    | (intros; simp_all [transpile_command, CtxP, pingvar_snd, remap_snd, cacheAdd_snd, ex_get_snd, op_call_rest_snd, comment_text_snd, script_tag_fold_snd, add_script_tag_snd, commentconfigure_snd, op_inc, RELASSIGN, PulpScriptContext.push_funccache, PulpScriptContext.pop_funccache, PulpScriptContext.push_evobj, PulpScriptContext.pop_evobj, PulpScriptContext.get_funccache] <;> omega)
  case case36 =>
    solve
    | (intros; simp_all [transpile_command, CtxP, pingvar_snd, remap_snd, cacheAdd_snd, ex_get_snd, op_call_rest_snd, comment_text_snd, script_tag_fold_snd, add_script_tag_snd, commentconfigure_snd, op_inc, RELASSIGN, PulpScriptContext.push_funccache, PulpScriptContext.pop_funccache, PulpScriptContext.push_evobj, PulpScriptContext.pop_evobj, PulpScriptContext.get_funccache])
    | (intros; simp_all [transpile_command, CtxP, pingvar_snd, remap_snd, cacheAdd_snd, ex_get_snd, op_call_rest_snd, comment_text_snd, script_tag_fold_snd, add_script_tag_snd, commentconfigure_snd, op_inc, RELASSIGN, PulpScriptContext.push_funccache, PulpScriptContext.pop_funccache, PulpScriptContext.push_evobj, PulpScriptContext.pop_evobj, PulpScriptContext.get_funccache] <;> omega)
  case case37 =>
    intro nc c2 idx inl v c1 hx
    have h := comment_text_snd idx inl c2
    rw [hx] at h
    simp_all [transpile_command, CtxP]
  case case38 =>
    solve
    | (intros; simp_all [transpile_command, CtxP, pingvar_snd, remap_snd, cacheAdd_snd, ex_get_snd, op_call_rest_snd, comment_text_snd, script_tag_fold_snd, add_script_tag_snd, commentconfigure_snd, op_inc, RELASSIGN, PulpScriptContext.push_funccache, PulpScriptContext.pop_funccache, PulpScriptContext.push_evobj, PulpScriptContext.pop_evobj, PulpScriptContext.get_funccache])
    | (intros; simp_all [transpile_command, CtxP, pingvar_snd, remap_snd, cacheAdd_snd, ex_get_snd, op_call_rest_snd, comment_text_snd, script_tag_fold_snd, add_script_tag_snd, commentconfigure_snd, op_inc, RELASSIGN, PulpScriptContext.push_funccache, PulpScriptContext.pop_funccache, PulpScriptContext.push_evobj, PulpScriptContext.pop_evobj, PulpScriptContext.get_funccache] <;> omega)
  case case39 =>
    solve
    | (intros; simp_all [opex_func, CtxP, pingvar_snd, remap_snd, cacheAdd_snd, ex_get_snd, op_call_rest_snd, comment_text_snd, script_tag_fold_snd, add_script_tag_snd, commentconfigure_snd, op_inc, RELASSIGN, PulpScriptContext.push_funccache, PulpScriptContext.pop_funccache, PulpScriptContext.push_evobj, PulpScriptContext.pop_evobj, PulpScriptContext.get_funccache])
    | (intros; simp_all [opex_func, CtxP, pingvar_snd, remap_snd, cacheAdd_snd, ex_get_snd, op_call_rest_snd, comment_text_snd, script_tag_fold_snd, add_script_tag_snd, commentconfigure_snd, op_inc, RELASSIGN, PulpScriptContext.push_funccache, PulpScriptContext.pop_funccache, PulpScriptContext.push_evobj, PulpScriptContext.pop_evobj, PulpScriptContext.get_funccache] <;> omega)
  case case40 =>
    solve
    | (intros; simp_all [opex_func, CtxP, pingvar_snd, remap_snd, cacheAdd_snd, ex_get_snd, op_call_rest_snd, comment_text_snd, script_tag_fold_snd, add_script_tag_snd, commentconfigure_snd, op_inc, RELASSIGN, PulpScriptContext.push_funccache, PulpScriptContext.pop_funccache, PulpScriptContext.push_evobj, PulpScriptContext.pop_evobj, PulpScriptContext.get_funccache])
    | (intros; simp_all [opex_func, CtxP, pingvar_snd, remap_snd, cacheAdd_snd, ex_get_snd, op_call_rest_snd, comment_text_snd, script_tag_fold_snd, add_script_tag_snd, commentconfigure_snd, op_inc, RELASSIGN, PulpScriptContext.push_funccache, PulpScriptContext.pop_funccache, PulpScriptContext.push_evobj, PulpScriptContext.pop_evobj, PulpScriptContext.get_funccache] <;> omega)
  case case41 =>
    solve
    | (intros; simp_all [opex_collect, CtxP, pingvar_snd, remap_snd, cacheAdd_snd, ex_get_snd, op_call_rest_snd, comment_text_snd, script_tag_fold_snd, add_script_tag_snd, commentconfigure_snd, op_inc, RELASSIGN, PulpScriptContext.push_funccache, PulpScriptContext.pop_funccache, PulpScriptContext.push_evobj, PulpScriptContext.pop_evobj, PulpScriptContext.get_funccache])
    | (intros; simp_all [opex_collect, CtxP, pingvar_snd, remap_snd, cacheAdd_snd, ex_get_snd, op_call_rest_snd, comment_text_snd, script_tag_fold_snd, add_script_tag_snd, commentconfigure_snd, op_inc, RELASSIGN, PulpScriptContext.push_funccache, PulpScriptContext.pop_funccache, PulpScriptContext.push_evobj, PulpScriptContext.pop_evobj, PulpScriptContext.get_funccache] <;> omega)
  case case42 =>
    solve
    | (intros; simp_all [opex_collect, CtxP, pingvar_snd, remap_snd, cacheAdd_snd, ex_get_snd, op_call_rest_snd, comment_text_snd, script_tag_fold_snd, add_script_tag_snd, commentconfigure_snd, op_inc, RELASSIGN, PulpScriptContext.push_funccache, PulpScriptContext.pop_funccache, PulpScriptContext.push_evobj, PulpScriptContext.pop_evobj, PulpScriptContext.get_funccache])
    | (intros; simp_all [opex_collect, CtxP, pingvar_snd, remap_snd, cacheAdd_snd, ex_get_snd, op_call_rest_snd, comment_text_snd, script_tag_fold_snd, add_script_tag_snd, commentconfigure_snd, op_inc, RELASSIGN, PulpScriptContext.push_funccache, PulpScriptContext.pop_funccache, PulpScriptContext.push_evobj, PulpScriptContext.pop_evobj, PulpScriptContext.get_funccache] <;> omega)
  case case43 =>
    solve
    | (intros; simp_all [opex_collect, CtxP, pingvar_snd, remap_snd, cacheAdd_snd, ex_get_snd, op_call_rest_snd, comment_text_snd, script_tag_fold_snd, add_script_tag_snd, commentconfigure_snd, op_inc, RELASSIGN, PulpScriptContext.push_funccache, PulpScriptContext.pop_funccache, PulpScriptContext.push_evobj, PulpScriptContext.pop_evobj, PulpScriptContext.get_funccache])
    | (intros; simp_all [opex_collect, CtxP, pingvar_snd, remap_snd, cacheAdd_snd, ex_get_snd, op_call_rest_snd, comment_text_snd, script_tag_fold_snd, add_script_tag_snd, commentconfigure_snd, op_inc, RELASSIGN, PulpScriptContext.push_funccache, PulpScriptContext.pop_funccache, PulpScriptContext.push_evobj, PulpScriptContext.pop_evobj, PulpScriptContext.get_funccache] <;> omega)
  case case44 =>
    solve
    | (intros; simp_all [opex_collect, CtxP, pingvar_snd, remap_snd, cacheAdd_snd, ex_get_snd, op_call_rest_snd, comment_text_snd, script_tag_fold_snd, add_script_tag_snd, commentconfigure_snd, op_inc, RELASSIGN, PulpScriptContext.push_funccache, PulpScriptContext.pop_funccache, PulpScriptContext.push_evobj, PulpScriptContext.pop_evobj, PulpScriptContext.get_funccache])
    | (intros; simp_all [opex_collect, CtxP, pingvar_snd, remap_snd, cacheAdd_snd, ex_get_snd, op_call_rest_snd, comment_text_snd, script_tag_fold_snd, add_script_tag_snd, commentconfigure_snd, op_inc, RELASSIGN, PulpScriptContext.push_funccache, PulpScriptContext.pop_funccache, PulpScriptContext.push_evobj, PulpScriptContext.pop_evobj, PulpScriptContext.get_funccache] <;> omega)
  case case45 =>
    solve
    | (intros; simp_all [opex_collect, CtxP, pingvar_snd, remap_snd, cacheAdd_snd, ex_get_snd, op_call_rest_snd, comment_text_snd, script_tag_fold_snd, add_script_tag_snd, commentconfigure_snd, op_inc, RELASSIGN, PulpScriptContext.push_funccache, PulpScriptContext.pop_funccache, PulpScriptContext.push_evobj, PulpScriptContext.pop_evobj, PulpScriptContext.get_funccache])
    | (intros; simp_all [opex_collect, CtxP, pingvar_snd, remap_snd, cacheAdd_snd, ex_get_snd, op_call_rest_snd, comment_text_snd, script_tag_fold_snd, add_script_tag_snd, commentconfigure_snd, op_inc, RELASSIGN, PulpScriptContext.push_funccache, PulpScriptContext.pop_funccache, PulpScriptContext.push_evobj, PulpScriptContext.pop_evobj, PulpScriptContext.get_funccache] <;> omega)
  case case46 =>
    solve
    | (intros; simp_all [opex_collect, CtxP, pingvar_snd, remap_snd, cacheAdd_snd, ex_get_snd, op_call_rest_snd, comment_text_snd, script_tag_fold_snd, add_script_tag_snd, commentconfigure_snd, op_inc, RELASSIGN, PulpScriptContext.push_funccache, PulpScriptContext.pop_funccache, PulpScriptContext.push_evobj, PulpScriptContext.pop_evobj, PulpScriptContext.get_funccache])
    | (intros; simp_all [opex_collect, CtxP, pingvar_snd, remap_snd, cacheAdd_snd, ex_get_snd, op_call_rest_snd, comment_text_snd, script_tag_fold_snd, add_script_tag_snd, commentconfigure_snd, op_inc, RELASSIGN, PulpScriptContext.push_funccache, PulpScriptContext.pop_funccache, PulpScriptContext.push_evobj, PulpScriptContext.pop_evobj, PulpScriptContext.get_funccache] <;> omega)
  case case47 =>
    intro c6 x3 y3 body tail cA v2 c4 hx2 v1 c3 hx1 cB cC v cE hx ih3 ih2 ih1
    unfold_let cA at hx2 ih3
    unfold_let cC cB at hx ih1
    rw [hx2] at ih3
    rw [hx1] at ih2
    rw [hx] at ih1
    rw [op_tell.eq_1]
    simp only [hx2]
    try dsimp only
    simp only [hx1]
    try dsimp only
    simp only [hx]
    try dsimp only
    obtain ⟨a1, a2, a3, a4, a5⟩ := ih3
    obtain ⟨b1, b2, b3, b4, b5⟩ := ih2
    obtain ⟨d1, d2, d3, d4, d5⟩ := ih1
    simp_all [CtxP, PulpScriptContext.push_evobj, PulpScriptContext.pop_evobj] <;> omega
  case case48 =>
    intro c4 nm h body tail cA cB cC v cE hx ih1
    unfold_let cC cB cA at hx ih1
    rw [hx] at ih1
    rw [op_tell.eq_2]
    rw [if_pos h]
    simp only at hx
    simp only [hx]
    try dsimp only
    obtain ⟨d1, d2, d3, d4, d5⟩ := ih1
    simp_all [CtxP, PulpScriptContext.push_evobj, PulpScriptContext.pop_evobj] <;> omega
  case case49 =>
    solve
    | (intros; simp_all [op_tell, CtxP, pingvar_snd, remap_snd, cacheAdd_snd, ex_get_snd, op_call_rest_snd, comment_text_snd, script_tag_fold_snd, add_script_tag_snd, commentconfigure_snd, op_inc, RELASSIGN, PulpScriptContext.push_funccache, PulpScriptContext.pop_funccache, PulpScriptContext.push_evobj, PulpScriptContext.pop_evobj, PulpScriptContext.get_funccache])
    | (intros; simp_all [op_tell, CtxP, pingvar_snd, remap_snd, cacheAdd_snd, ex_get_snd, op_call_rest_snd, comment_text_snd, script_tag_fold_snd, add_script_tag_snd, commentconfigure_snd, op_inc, RELASSIGN, PulpScriptContext.push_funccache, PulpScriptContext.pop_funccache, PulpScriptContext.push_evobj, PulpScriptContext.pop_evobj, PulpScriptContext.get_funccache] <;> omega)
  case case50 =>
    intro c2 nm rest h ih1
    by_cases hb : ∃ body tail, rest = Arg.blockArg body :: tail
    · obtain ⟨body, tail, rfl⟩ := hb
      rw [op_tell.eq_2, if_neg h]
      exact ih1
    · rw [op_tell.eq_3]
      · rw [if_neg h]
        exact ih1
      · intro body tail heq
        exact hb ⟨body, tail, heq⟩
  case case51 =>
    solve
    | (intros; simp_all [op_tell, CtxP, pingvar_snd, remap_snd, cacheAdd_snd, ex_get_snd, op_call_rest_snd, comment_text_snd, script_tag_fold_snd, add_script_tag_snd, commentconfigure_snd, op_inc, RELASSIGN, PulpScriptContext.push_funccache, PulpScriptContext.pop_funccache, PulpScriptContext.push_evobj, PulpScriptContext.pop_evobj, PulpScriptContext.get_funccache])
    | (intros; simp_all [op_tell, CtxP, pingvar_snd, remap_snd, cacheAdd_snd, ex_get_snd, op_call_rest_snd, comment_text_snd, script_tag_fold_snd, add_script_tag_snd, commentconfigure_snd, op_inc, RELASSIGN, PulpScriptContext.push_funccache, PulpScriptContext.pop_funccache, PulpScriptContext.push_evobj, PulpScriptContext.pop_evobj, PulpScriptContext.get_funccache] <;> omega)
  case case52 =>
    intro args c2 aL cL v c1 x ih1
    unfold_let aL cL at x ih1
    rw [x] at ih1
    simp_all [op_tell_generic, CtxP, PulpScriptContext.push_evobj, PulpScriptContext.pop_evobj]
  case case53 =>
    intro target c2 h cL v cE x ih1
    unfold_let cL at x ih1
    rw [x] at ih1
    obtain ⟨d1, d2, d3, d4, d5⟩ := ih1
    by_cases hn : ∃ n, target = Expr.num n
    · obtain ⟨n, rfl⟩ := hn
      rw [op_mimic.eq_1]
      simp_all [CtxP]
      try omega
    · have h2 : name_ref_hit c2.tile_ids target = true := by
        cases target <;> first | (exfalso; exact hn ⟨_, rfl⟩) | simp_all
      rw [op_mimic.eq_2]
      · simp_all [CtxP]
        try omega
      · intro n heq
        exact hn ⟨n, heq⟩
  case case54 =>
    intro target c2 h cL v cE x ih1
    unfold_let cL at x ih1
    rw [x] at ih1
    obtain ⟨d1, d2, d3, d4, d5⟩ := ih1
    by_cases hn : ∃ n, target = Expr.num n
    · obtain ⟨n, rfl⟩ := hn
      simp at h
    · have h2 : name_ref_hit c2.tile_ids target = false := by
        cases target <;> simp_all
      rw [op_mimic.eq_2]
      · simp_all [CtxP]
        try omega
      · intro n heq
        exact hn ⟨n, heq⟩
  case case55 =>
    solve
    | (intros; simp_all [op_emit, CtxP, pingvar_snd, remap_snd, cacheAdd_snd, ex_get_snd, op_call_rest_snd, comment_text_snd, script_tag_fold_snd, add_script_tag_snd, commentconfigure_snd, op_inc, RELASSIGN, PulpScriptContext.push_funccache, PulpScriptContext.pop_funccache, PulpScriptContext.push_evobj, PulpScriptContext.pop_evobj, PulpScriptContext.get_funccache])
    | (intros; simp_all [op_emit, CtxP, pingvar_snd, remap_snd, cacheAdd_snd, ex_get_snd, op_call_rest_snd, comment_text_snd, script_tag_fold_snd, add_script_tag_snd, commentconfigure_snd, op_inc, RELASSIGN, PulpScriptContext.push_funccache, PulpScriptContext.pop_funccache, PulpScriptContext.push_evobj, PulpScriptContext.pop_evobj, PulpScriptContext.get_funccache] <;> omega)
  case case56 =>
    solve
    | (intros; simp_all [op_call, CtxP, pingvar_snd, remap_snd, cacheAdd_snd, ex_get_snd, op_call_rest_snd, comment_text_snd, script_tag_fold_snd, add_script_tag_snd, commentconfigure_snd, op_inc, RELASSIGN, PulpScriptContext.push_funccache, PulpScriptContext.pop_funccache, PulpScriptContext.push_evobj, PulpScriptContext.pop_evobj, PulpScriptContext.get_funccache])
    | (intros; simp_all [op_call, CtxP, pingvar_snd, remap_snd, cacheAdd_snd, ex_get_snd, op_call_rest_snd, comment_text_snd, script_tag_fold_snd, add_script_tag_snd, commentconfigure_snd, op_inc, RELASSIGN, PulpScriptContext.push_funccache, PulpScriptContext.pop_funccache, PulpScriptContext.push_evobj, PulpScriptContext.pop_evobj, PulpScriptContext.get_funccache] <;> omega)
  case case57 =>
    solve
    | (intros; simp_all [op_call, CtxP, pingvar_snd, remap_snd, cacheAdd_snd, ex_get_snd, op_call_rest_snd, comment_text_snd, script_tag_fold_snd, add_script_tag_snd, commentconfigure_snd, op_inc, RELASSIGN, PulpScriptContext.push_funccache, PulpScriptContext.pop_funccache, PulpScriptContext.push_evobj, PulpScriptContext.pop_evobj, PulpScriptContext.get_funccache])
    | (intros; simp_all [op_call, CtxP, pingvar_snd, remap_snd, cacheAdd_snd, ex_get_snd, op_call_rest_snd, comment_text_snd, script_tag_fold_snd, add_script_tag_snd, commentconfigure_snd, op_inc, RELASSIGN, PulpScriptContext.push_funccache, PulpScriptContext.pop_funccache, PulpScriptContext.push_evobj, PulpScriptContext.pop_evobj, PulpScriptContext.get_funccache] <;> omega)
  case case58 =>
    solve
    | (intros; simp_all [op_call, CtxP, pingvar_snd, remap_snd, cacheAdd_snd, ex_get_snd, op_call_rest_snd, comment_text_snd, script_tag_fold_snd, add_script_tag_snd, commentconfigure_snd, op_inc, RELASSIGN, PulpScriptContext.push_funccache, PulpScriptContext.pop_funccache, PulpScriptContext.push_evobj, PulpScriptContext.pop_evobj, PulpScriptContext.get_funccache])
    | (intros; simp_all [op_call, CtxP, pingvar_snd, remap_snd, cacheAdd_snd, ex_get_snd, op_call_rest_snd, comment_text_snd, script_tag_fold_snd, add_script_tag_snd, commentconfigure_snd, op_inc, RELASSIGN, PulpScriptContext.push_funccache, PulpScriptContext.pop_funccache, PulpScriptContext.push_evobj, PulpScriptContext.pop_evobj, PulpScriptContext.get_funccache] <;> omega)
  case case59 =>
    intro cond blockBody subs statement follow endkw ctx pl pr pb h1 h2 h3 h4 h5 h6 h7
    clear h4 h6
    have P1 : CtxP ctx pl.2 := by
      unfold_let pl
      split
      · rename_i ls hl
        split
        · have hp := pingvar_snd ctx ls
          have hr := remap_snd (ctx.pingvar ls).1 (ctx.pingvar ls).2
          simp only [CtxP]
          simp_all
        · exact h1 ls hl
      · first
        | (rename_i lother hl; exact h2 lother hl)
        | (rename_i hl; exact h2 _ hl)
        | exact h2 _ rfl
    have P2 : CtxP pl.2 pr.2 := h3
    have P3 : CtxP { pr.2 with indent := pr.2.indent + 1 } pb.2 := h5
    have P4 : CtxP { pb.2 with indent := pb.2.indent - 1 }
        (op_followups subs { pb.2 with indent := pb.2.indent - 1 }).2 := h7
    have key : (op_block cond blockBody subs statement follow endkw ctx).2 =
        (op_followups subs { pb.2 with indent := pb.2.indent - 1 }).2 := by
      rcases endkw with _ | e
      · rw [op_block.eq_2]
        first
        | rfl
        | (unfold_let pb pr pl; simp only [dite_eq_ite])
      · rw [op_block.eq_1]
        first
        | rfl
        | (unfold_let pb pr pl; simp only [dite_eq_ite])
    rw [key]
    obtain ⟨a1, a2, a3, a4, a5⟩ := P1
    obtain ⟨b1, b2, b3, b4, b5⟩ := P2
    obtain ⟨c1, c2, c3, c4, c5⟩ := P3
    obtain ⟨d1, d2, d3, d4, d5⟩ := P4
    clear h1 h2 h3 h5 h7
    simp only [CtxP] at *
    simp_all
    try omega
  case case60 =>
    solve
    | (intros; simp_all [op_followups, CtxP, pingvar_snd, remap_snd, cacheAdd_snd, ex_get_snd, op_call_rest_snd, comment_text_snd, script_tag_fold_snd, add_script_tag_snd, commentconfigure_snd, op_inc, RELASSIGN, PulpScriptContext.push_funccache, PulpScriptContext.pop_funccache, PulpScriptContext.push_evobj, PulpScriptContext.pop_evobj, PulpScriptContext.get_funccache])
    | (intros; simp_all [op_followups, CtxP, pingvar_snd, remap_snd, cacheAdd_snd, ex_get_snd, op_call_rest_snd, comment_text_snd, script_tag_fold_snd, add_script_tag_snd, commentconfigure_snd, op_inc, RELASSIGN, PulpScriptContext.push_funccache, PulpScriptContext.pop_funccache, PulpScriptContext.push_evobj, PulpScriptContext.pop_evobj, PulpScriptContext.get_funccache] <;> omega)
  case case61 =>
    solve
    | (intros; simp_all [op_followups, CtxP, pingvar_snd, remap_snd, cacheAdd_snd, ex_get_snd, op_call_rest_snd, comment_text_snd, script_tag_fold_snd, add_script_tag_snd, commentconfigure_snd, op_inc, RELASSIGN, PulpScriptContext.push_funccache, PulpScriptContext.pop_funccache, PulpScriptContext.push_evobj, PulpScriptContext.pop_evobj, PulpScriptContext.get_funccache])
    | (intros; simp_all [op_followups, CtxP, pingvar_snd, remap_snd, cacheAdd_snd, ex_get_snd, op_call_rest_snd, comment_text_snd, script_tag_fold_snd, add_script_tag_snd, commentconfigure_snd, op_inc, RELASSIGN, PulpScriptContext.push_funccache, PulpScriptContext.pop_funccache, PulpScriptContext.push_evobj, PulpScriptContext.pop_evobj, PulpScriptContext.get_funccache] <;> omega)
  case case62 =>
    intro c2 b rest cA v cB x cC v2 cD x2 ih1 ih2
    rw [x] at ih1
    rw [x2] at ih2
    unfold_let cC at x2 ih2
    unfold_let cA at x ih1
    simp only [op_followups]
    rw [x]
    dsimp only
    rw [x2]
    dsimp only
    obtain ⟨a1, a2, a3, a4, a5⟩ := ih1
    obtain ⟨b1, b2, b3, b4, b5⟩ := ih2
    simp_all [CtxP]
    try omega
  case case63 =>
    solve
    | (intros; simp_all [op_random, CtxP, pingvar_snd, remap_snd, cacheAdd_snd, ex_get_snd, op_call_rest_snd, comment_text_snd, script_tag_fold_snd, add_script_tag_snd, commentconfigure_snd, op_inc, RELASSIGN, PulpScriptContext.push_funccache, PulpScriptContext.pop_funccache, PulpScriptContext.push_evobj, PulpScriptContext.pop_evobj, PulpScriptContext.get_funccache])
    | (intros; simp_all [op_random, CtxP, pingvar_snd, remap_snd, cacheAdd_snd, ex_get_snd, op_call_rest_snd, comment_text_snd, script_tag_fold_snd, add_script_tag_snd, commentconfigure_snd, op_inc, RELASSIGN, PulpScriptContext.push_funccache, PulpScriptContext.pop_funccache, PulpScriptContext.push_evobj, PulpScriptContext.pop_evobj, PulpScriptContext.get_funccache] <;> omega)
  case case64 =>
    solve
    | (intros; simp_all [op_random, CtxP, pingvar_snd, remap_snd, cacheAdd_snd, ex_get_snd, op_call_rest_snd, comment_text_snd, script_tag_fold_snd, add_script_tag_snd, commentconfigure_snd, op_inc, RELASSIGN, PulpScriptContext.push_funccache, PulpScriptContext.pop_funccache, PulpScriptContext.push_evobj, PulpScriptContext.pop_evobj, PulpScriptContext.get_funccache])
    | (intros; simp_all [op_random, CtxP, pingvar_snd, remap_snd, cacheAdd_snd, ex_get_snd, op_call_rest_snd, comment_text_snd, script_tag_fold_snd, add_script_tag_snd, commentconfigure_snd, op_inc, RELASSIGN, PulpScriptContext.push_funccache, PulpScriptContext.pop_funccache, PulpScriptContext.push_evobj, PulpScriptContext.pop_evobj, PulpScriptContext.get_funccache] <;> omega)
  case case65 =>
    solve
    | (intros; simp_all [op_random, CtxP, pingvar_snd, remap_snd, cacheAdd_snd, ex_get_snd, op_call_rest_snd, comment_text_snd, script_tag_fold_snd, add_script_tag_snd, commentconfigure_snd, op_inc, RELASSIGN, PulpScriptContext.push_funccache, PulpScriptContext.pop_funccache, PulpScriptContext.push_evobj, PulpScriptContext.pop_evobj, PulpScriptContext.get_funccache])
    | (intros; simp_all [op_random, CtxP, pingvar_snd, remap_snd, cacheAdd_snd, ex_get_snd, op_call_rest_snd, comment_text_snd, script_tag_fold_snd, add_script_tag_snd, commentconfigure_snd, op_inc, RELASSIGN, PulpScriptContext.push_funccache, PulpScriptContext.pop_funccache, PulpScriptContext.push_evobj, PulpScriptContext.pop_evobj, PulpScriptContext.get_funccache] <;> omega)
  case case66 =>
    intro nm rv operator c2 v c1 hp v2 cE x hcond ih1
    have hpv := pingvar_snd c2 nm
    rw [hp] at hpv
    rw [x] at ih1
    simp only [op_set]
    rw [hp]
    dsimp only
    rw [x]
    dsimp only
    obtain ⟨a1, a2, a3, a4, a5⟩ := ih1
    split
    · simp_all [CtxP]
    · simp_all [CtxP]
  case case67 =>
    solve
    | (intros; simp_all [op_set, CtxP, pingvar_snd, remap_snd, cacheAdd_snd, ex_get_snd, op_call_rest_snd, comment_text_snd, script_tag_fold_snd, add_script_tag_snd, commentconfigure_snd, op_inc, RELASSIGN, PulpScriptContext.push_funccache, PulpScriptContext.pop_funccache, PulpScriptContext.push_evobj, PulpScriptContext.pop_evobj, PulpScriptContext.get_funccache])
    | (intros; simp_all [op_set, CtxP, pingvar_snd, remap_snd, cacheAdd_snd, ex_get_snd, op_call_rest_snd, comment_text_snd, script_tag_fold_snd, add_script_tag_snd, commentconfigure_snd, op_inc, RELASSIGN, PulpScriptContext.push_funccache, PulpScriptContext.pop_funccache, PulpScriptContext.push_evobj, PulpScriptContext.pop_evobj, PulpScriptContext.get_funccache] <;> omega)
  case case68 =>
    solve
    | (intros; simp_all [ex_name, CtxP, pingvar_snd, remap_snd, cacheAdd_snd, ex_get_snd, op_call_rest_snd, comment_text_snd, script_tag_fold_snd, add_script_tag_snd, commentconfigure_snd, op_inc, RELASSIGN, PulpScriptContext.push_funccache, PulpScriptContext.pop_funccache, PulpScriptContext.push_evobj, PulpScriptContext.pop_evobj, PulpScriptContext.get_funccache])
    | (intros; simp_all [ex_name, CtxP, pingvar_snd, remap_snd, cacheAdd_snd, ex_get_snd, op_call_rest_snd, comment_text_snd, script_tag_fold_snd, add_script_tag_snd, commentconfigure_snd, op_inc, RELASSIGN, PulpScriptContext.push_funccache, PulpScriptContext.pop_funccache, PulpScriptContext.push_evobj, PulpScriptContext.pop_evobj, PulpScriptContext.get_funccache] <;> omega)
  case case69 =>
    solve
    | (intros; simp_all [ex_name, CtxP, pingvar_snd, remap_snd, cacheAdd_snd, ex_get_snd, op_call_rest_snd, comment_text_snd, script_tag_fold_snd, add_script_tag_snd, commentconfigure_snd, op_inc, RELASSIGN, PulpScriptContext.push_funccache, PulpScriptContext.pop_funccache, PulpScriptContext.push_evobj, PulpScriptContext.pop_evobj, PulpScriptContext.get_funccache])
    | (intros; simp_all [ex_name, CtxP, pingvar_snd, remap_snd, cacheAdd_snd, ex_get_snd, op_call_rest_snd, comment_text_snd, script_tag_fold_snd, add_script_tag_snd, commentconfigure_snd, op_inc, RELASSIGN, PulpScriptContext.push_funccache, PulpScriptContext.pop_funccache, PulpScriptContext.push_evobj, PulpScriptContext.pop_evobj, PulpScriptContext.get_funccache] <;> omega)
  case case70 =>
    solve
    | (intros; simp_all [ex_format_loop, CtxP, pingvar_snd, remap_snd, cacheAdd_snd, ex_get_snd, op_call_rest_snd, comment_text_snd, script_tag_fold_snd, add_script_tag_snd, commentconfigure_snd, op_inc, RELASSIGN, PulpScriptContext.push_funccache, PulpScriptContext.pop_funccache, PulpScriptContext.push_evobj, PulpScriptContext.pop_evobj, PulpScriptContext.get_funccache])
    | (intros; simp_all [ex_format_loop, CtxP, pingvar_snd, remap_snd, cacheAdd_snd, ex_get_snd, op_call_rest_snd, comment_text_snd, script_tag_fold_snd, add_script_tag_snd, commentconfigure_snd, op_inc, RELASSIGN, PulpScriptContext.push_funccache, PulpScriptContext.pop_funccache, PulpScriptContext.push_evobj, PulpScriptContext.pop_evobj, PulpScriptContext.get_funccache] <;> omega)
  case case71 =>
    intro s first c2 r sL sv v c1 x ih2 ih1
    rw [x] at ih2
    unfold_let sL at ih1
    simp only [dite_eq_ite] at ih1
    simp only [ex_format_loop]
    rw [x]
    dsimp only
    obtain ⟨a1, a2, a3, a4, a5⟩ := ih2
    obtain ⟨b1, b2, b3, b4, b5⟩ := ih1
    simp_all [CtxP]
    try omega
  case case72 =>
    intro s first c2 e r sL v c1 hfr x ih2 ih1
    rw [x] at ih2
    unfold_let sL at ih1
    simp only [dite_eq_ite] at ih1
    rw [ex_format_loop.eq_3]
    · rw [x]
      dsimp only
      obtain ⟨a1, a2, a3, a4, a5⟩ := ih2
      obtain ⟨b1, b2, b3, b4, b5⟩ := ih1
      simp_all [CtxP]
      try omega
    · exact hfr

/-! ## Lexicographic order facts for the cache flush (claim C1) -/

theorem listLe_total (a b : List Char) : listLe a b = true ∨ listLe b a = true := by
  induction a generalizing b with
  | nil => left; rfl
  | cons x xs ih =>
    cases b with
    | nil => right; rfl
    | cons y ys =>
      rcases lt_trichotomy x y with h | h | h
      · left; simp [listLe, h]
      · subst h; rcases ih ys with h2 | h2 <;> [left; right] <;> simp [listLe, h2]
      · right; simp [listLe, h, not_lt_of_gt h]

theorem listLe_trans {a b c : List Char} (h1 : listLe a b = true) (h2 : listLe b c = true) :
    listLe a c = true := by
  induction a generalizing b c with
  | nil => rfl
  | cons x xs ih =>
    cases b with
    | nil => simp [listLe] at h1
    | cons y ys =>
      cases c with
      | nil => simp [listLe] at h2
      | cons z zs =>
        simp only [listLe] at h1 h2 ⊢
        by_cases hxy : x < y
        · by_cases hyz : y < z
          · simp [lt_trans hxy hyz]
          · by_cases hzy : z < y
            · simp [hyz, hzy] at h2
            · have hyz2 : y = z := le_antisymm (not_lt.mp hzy) (not_lt.mp hyz)
              subst hyz2
              simp [hxy]
        · by_cases hyx : y < x
          · simp [hxy, hyx] at h1
          · have hxy2 : x = y := le_antisymm (not_lt.mp hyx) (not_lt.mp hxy)
            subst hxy2
            simp [lt_irrefl] at h1
            by_cases hyz : x < z
            · simp [hyz]
            · by_cases hzy : z < x
              · simp [hyz, hzy] at h2
              · have hxz : x = z := le_antisymm (not_lt.mp hzy) (not_lt.mp hyz)
                subst hxz
                simp [lt_irrefl] at h2 ⊢
                exact ih h1 h2

instance : IsTotal String (fun a b => strLe a b = true) :=
  ⟨fun a b => listLe_total a.data b.data⟩

instance : IsTrans String (fun a b => strLe a b = true) :=
  ⟨fun _ _ _ => listLe_trans⟩

/-- The declaration lines the flush loop of `transpile_commands` prepends,
in the textual order in which they end up: the sorted cache contents,
reversed (because each line is prepended in ascending order). -/
def flush_prologue (ctx1 : PulpScriptContext) : List String :=
  (List.insertionSort (fun a b => strLe a b = true) ctx1.get_funccache).reverse

theorem foldl_prepend_eq (g : String) (l : List String) (s : String) :
    l.foldl (fun acc c => g ++ c ++ "\n" ++ acc) s =
      l.reverse.foldr (fun c acc => g ++ c ++ "\n" ++ acc) s := by
  induction l generalizing s with
  | nil => rfl
  | cons a t ih =>
    rw [List.foldl_cons, ih, List.reverse_cons, List.foldr_append]
    rfl

/-- C1: the flush places the cache lines before the body, in REVERSE
lexicographic order (each sorted entry is prepended, so the largest ends up
first).  The spec's "sorted lexicographically" (ascending) is refuted by
`C1_counterexample`. -/
theorem C1_flush_reverse_sorted (commands : List Cmd) (ctx : PulpScriptContext) :
    (transpile_commands commands ctx true).1 =
      (flush_prologue (transpile_list commands ctx.push_funccache).2).foldr
        (fun c acc => (transpile_list commands ctx.push_funccache).2.gi ++ c ++ "\n" ++ acc)
        (transpile_list commands ctx.push_funccache).1 ∧
    (flush_prologue (transpile_list commands ctx.push_funccache).2).Pairwise
      (fun a b => strLe b a = true) := by
  constructor
  · rw [transpile_commands]
    simp only [if_pos rfl]
    rw [show transpile_list commands ctx.push_funccache =
      ((transpile_list commands ctx.push_funccache).1,
       (transpile_list commands ctx.push_funccache).2) from rfl]
    dsimp only
    rw [foldl_prepend_eq]
    rfl
  · rw [flush_prologue, List.pairwise_reverse]
    exact List.sorted_insertionSort _ _

set_option maxRecDepth 8000 in
/-- C1: with two distinct special-variable cache lines, the prologue comes
out in descending order: the `__event_y` line is emitted before the
`__event_x` line although the latter is lexicographically smaller. -/
theorem C1_counterexample :
    (transpile_commands [Cmd.set "a" (.get "event.x"), Cmd.set "b" (.get "event.y")]
        PulpScriptContext.init true).1 =
      "  local __event_y = __actor.y or __pulp.player.y\n" ++
      "  local __event_x = __actor.x or __pulp.player.x\n" ++
      "  a = __event_x\n  b = __event_y\n" ∧
    strLe "local __event_x = __actor.x or __pulp.player.x"
      "local __event_y = __actor.y or __pulp.player.y" = true := by
  constructor
  · simp +decide [transpile_commands, transpile_list, transpile_command, op_set,
      decode_rvalue, ex_get, remap_special_varname, PulpScriptContext.pingvar,
      PulpScriptContext.cacheAdd, PulpScriptContext.init,
      PulpScriptContext.push_funccache, PulpScriptContext.pop_funccache,
      PulpScriptContext.get_funccache, PulpScriptContext.gi, get_next_cmds_tags]
  · decide

/-! ## C2: the full-delegation record for a single-mimic handler -/

def C2ctx : PulpScriptContext :=
  { PulpScriptContext.init with tile_ids := [("pipe", 7)] }

/-- C2 (amended): a handler body that is exactly one mimic of a known tile
name appends exactly one record, and its third component is the tile NAME
(`mimic[1][2]`), not the numeric id. -/
theorem C2_single_mimic_records_name (evobj evname nm evobjname : String)
    (id : Int) (cb evnames : List String) (ctx : PulpScriptContext)
    (h : lookupAssoc ctx.tile_ids nm = some id) :
    (transpile_event evobj evname [Cmd.mimic (.str nm)] evobjname cb evnames ctx).2.full_mimics
      = ctx.full_mimics ++ [(evobj, evname, nm)] := by
  have hP := transpile_commands_ctxP [Cmd.mimic (.str nm)]
    { ({ ctx with self_evnames := evnames, comments_block := cb }).push_evobj "__self" with
      root_evobj := if evobjname = "" then "__pulp:getScript(\"" ++ evobj ++ "\")" else evobjname } true
  obtain ⟨p1, p2, p3, p4, p5⟩ := hP
  simp only [transpile_event]
  simp only [List.filter, isList, PulpScriptContext.pop_evobj]
  simp_all [optimize_name_ref, PulpScriptContext.push_evobj]

/-- C2: concrete refutation of the spec's "numeric-target" reading: with
tile `pipe` having id 7, the recorded third component is the string
`"pipe"`, which is not the numeral `"7"`. -/
theorem C2_counterexample :
    (transpile_event "player" "draw" [Cmd.mimic (.str "pipe")] "" [] [] C2ctx).2.full_mimics
      = [("player", "draw", "pipe")] ∧ ("pipe" : String) ≠ "7" := by
  constructor
  · have h := C2_single_mimic_records_name "player" "draw" "pipe" "" 7 [] [] C2ctx (by decide)
    simpa [C2ctx, PulpScriptContext.init] using h
  · decide

/-! ## C3: the reserved double-underscore prefix escape -/

/-- C3 (amended): a plain (undotted, non-extension) name that begins with
two underscores is registered with TWO further underscores prepended (the
source prepends the string `"__"`), then sanitized. -/
theorem C3_reserved_prefix_escape (v : String) (ctx : PulpScriptContext)
    (h1 : strContains v '.' = false) (h2 : pyStartsWith v "__PTLE_" = false)
    (h3 : pyStartsWith v "__" = true) :
    ctx.pingvar v = (sanitize_varname ("__" ++ v),
      { ctx with var_usage := bumpUsage ctx.var_usage v,
                 vars := addSet ctx.vars (sanitize_varname ("__" ++ v)) }) := by
  simp [PulpScriptContext.pingvar, h1, h2, h3]

/-- Witness for `C3_reserved_prefix_escape` at `"__foo"`. -/
theorem C3_reserved_prefix_escape_witness :
    (strContains "__foo" '.' = false ∧ pyStartsWith "__foo" "__PTLE_" = false ∧
      pyStartsWith "__foo" "__" = true) ∧
    PulpScriptContext.init.pingvar "__foo" = (sanitize_varname ("__" ++ "__foo"),
      { PulpScriptContext.init with
          var_usage := bumpUsage PulpScriptContext.init.var_usage "__foo",
          vars := addSet PulpScriptContext.init.vars (sanitize_varname ("__" ++ "__foo")) }) :=
  ⟨⟨by decide, by decide, by decide⟩,
   C3_reserved_prefix_escape "__foo" PulpScriptContext.init (by decide) (by decide) (by decide)⟩

/-- C3: the registered name gains TWO extra leading underscores, not the
single one the spec describes: `__foo` becomes `____foo`, not `___foo`. -/
theorem C3_counterexample :
    (PulpScriptContext.init.pingvar "__foo").1 = "____foo" ∧
    "____foo" ≠ "___foo" := by
  constructor
  · decide
  · decide

/-! ## C4: stack restoration across a whole handler -/

/-- C4: compiling a top-level handler restores the function-local-cache
stack depth and the dispatch-object stack exactly, for every body. -/
theorem C4_handler_stack_restoration (evobj evname : String) (body : List Cmd)
    (evobjname : String) (cb evnames : List String) (ctx : PulpScriptContext) :
    (transpile_event evobj evname body evobjname cb evnames ctx).2.funccache.length
        = ctx.funccache.length ∧
    (transpile_event evobj evname body evobjname cb evnames ctx).2.evobjs = ctx.evobjs := by
  have hP := transpile_commands_ctxP body
    { ({ ctx with self_evnames := evnames, comments_block := cb }).push_evobj "__self" with
      root_evobj := if evobjname = "" then "__pulp:getScript(\"" ++ evobj ++ "\")" else evobjname } true
  obtain ⟨p1, p2, p3, p4, p5⟩ := hP
  simp only [transpile_event, PulpScriptContext.pop_evobj]
  split
  next onecmd heq =>
    split
    all_goals try (split; all_goals simp_all [PulpScriptContext.push_evobj])
    all_goals simp_all [PulpScriptContext.push_evobj]
  next heq => simp_all [PulpScriptContext.push_evobj]

/-! ## C5: the [DIRECT] tag and the wildcard fallback -/

theorem strMid_quote (s : String) : strMid ("\"" ++ s ++ "\"") = s := by
  have hd : ("\"" ++ s ++ "\"").data = '"' :: (s.data ++ ['"']) := by
    simp [String.data_append]
  simp only [strMid, strDrop, strDropLast, hd, List.drop_succ_cons, List.drop_zero,
    List.dropLast_concat]

theorem script_tag_fold_no_script (fnstr : String) (tags : List String)
    (fb cm : String) (ctx : PulpScriptContext)
    (h : ∀ t ∈ tags, pyStartsWith t "[SCRIPT:" = false) :
    tags.foldl (script_tag_step fnstr) (fb, cm, ctx) = (fb, cm, ctx) := by
  induction tags with
  | nil => rfl
  | cons a rest ih =>
    have ha := h a (List.mem_cons_self a rest)
    rw [List.foldl_cons]
    rw [show script_tag_step fnstr (fb, cm, ctx) a = (fb, cm, ctx) by
      simp [script_tag_step, ha]]
    exact ih (fun t ht => h t (List.mem_cons_of_mem a ht))

/-- C5 (amended): a `[DIRECT]` tag yields a direct call to the named
handler PROVIDED the current dispatch object is not `__self`; the `__self`
static-name check can still override it (see `C5_counterexample`). -/
theorem C5_direct_outside_self (s : String) (tags : List String)
    (ctx : PulpScriptContext) (htok : istoken s = true)
    (hdir : tags.contains "[DIRECT]" = true)
    (hself : ¬ctx.get_evobj = "__self")
    (hns : ∀ t ∈ tags, pyStartsWith t "[SCRIPT:" = false) :
    op_call (.str s) tags ctx =
      (ctx.get_evobj ++ "." ++ s ++ "(__actor, event, " ++ ("\"" ++ s ++ "\"") ++ ") " ++
        ("--[call \"" ++ s ++ "\"]" ++ " [DIRECT]"), ctx) := by
  rw [op_call.eq_1, if_pos htok]
  rw [op_call_rest]
  simp only [hdir, if_pos, if_neg hself, strMid_quote]
  rw [script_tag_fold_no_script _ tags _ _ _ hns]

/-- Witness for `C5_direct_outside_self`. -/
theorem C5_direct_outside_self_witness :
    (istoken "foo" = true ∧ (["[DIRECT]"] : List String).contains "[DIRECT]" = true ∧
      ¬({ PulpScriptContext.init with evobjs := ["obj"] } : PulpScriptContext).get_evobj = "__self" ∧
      (∀ t ∈ (["[DIRECT]"] : List String), pyStartsWith t "[SCRIPT:" = false)) ∧
    op_call (.str "foo") ["[DIRECT]"]
        { PulpScriptContext.init with evobjs := ["obj"] } =
      (({ PulpScriptContext.init with evobjs := ["obj"] } : PulpScriptContext).get_evobj
          ++ "." ++ "foo" ++ "(__actor, event, " ++ ("\"" ++ "foo" ++ "\"") ++ ") " ++
        ("--[call \"" ++ "foo" ++ "\"]" ++ " [DIRECT]"),
       { PulpScriptContext.init with evobjs := ["obj"] }) :=
  ⟨⟨by decide, by decide, by decide, by decide⟩,
   C5_direct_outside_self "foo" ["[DIRECT]"] _ (by decide) (by decide) (by decide) (by decide)⟩

def C5ctx : PulpScriptContext := { PulpScriptContext.init with evobjs := ["__self"] }

set_option maxRecDepth 8000 in
/-- C5: inside a `__self` handler, a `[DIRECT]`-tagged call to a statically
unknown token name is still rerouted to the wildcard `__self.any`; the tag
does not suppress the indirection there. -/
theorem C5_counterexample :
    (op_call (.str "foo") ["[DIRECT]"] C5ctx).1 =
      "__self.any(__actor, event, \"foo\") --[call \"foo\"] [DIRECT] [doesn't exist, so any]" ∧
    pyStartsWith (op_call (.str "foo") ["[DIRECT]"] C5ctx).1 "__self.foo" = false := by
  have h : op_call (.str "foo") ["[DIRECT]"] C5ctx =
      ("__self.any(__actor, event, \"foo\") --[call \"foo\"] [DIRECT] [doesn't exist, so any]",
       C5ctx) := by
    rw [op_call.eq_1]
    simp +decide [op_call_rest, script_tag_step, C5ctx, PulpScriptContext.init,
      PulpScriptContext.get_evobj, PulpScriptContext.cacheAdd, strMid, strDrop,
      strDropLast]
  rw [h]
  exact ⟨rfl, by decide⟩

/-! ## C6: tag collection scans past intervening commands (code bug) -/

def C6ctx : PulpScriptContext :=
  { PulpScriptContext.init with comments_block := ["[DIRECT]"] }

/-- The scan the spec describes: bracketed tags are taken only from the
comment nodes immediately adjacent (the scan stops at the first
non-comment command).  Modelled from the spec's words, for comparison. -/
def adjacent_cmds_tags (ctx : PulpScriptContext) : List Cmd → List String
  | .comment idx _ :: rest =>
    (if idx < ctx.comments_block.length then
       let cmt := pyStrip (ctx.comments_block.getD idx "")
       if pyStartsWith cmt "[" then [cmt] else []
     else []) ++ adjacent_cmds_tags ctx rest
  | _ => []

/-- C6: `get_next_cmds_tags` stops only at a non-list entry, so a bracketed
comment BEHIND an intervening `set` command is still collected — the
spec-described adjacency scan would return nothing here. -/
theorem C6_tag_scan_passes_commands :
    get_next_cmds_tags C6ctx [Cmd.set "a" (.num 1), Cmd.comment 0 false] = ["[DIRECT]"] ∧
    adjacent_cmds_tags C6ctx [Cmd.set "a" (.num 1), Cmd.comment 0 false] = [] := by
  constructor
  · decide
  · decide

/-! ## C7: one cache line for any number of event.x reads -/

def C7body (n : Nat) : List Cmd := List.replicate n (Cmd.set "a" (.get "event.x"))

theorem C7_step (ctx : PulpScriptContext) (f : List String) (r : List (List String))
    (nc : List Cmd) (h : ctx.funccache = f :: r) :
    (transpile_command (Cmd.set "a" (.get "event.x")) nc ctx).2.funccache =
      addSet f "local __event_x = __actor.x or __pulp.player.x" :: r ∧
    (transpile_command (Cmd.set "a" (.get "event.x")) nc ctx).2.indent = ctx.indent := by
  simp +decide [transpile_command, op_set, decode_rvalue, ex_get,
    remap_special_varname, PulpScriptContext.pingvar, PulpScriptContext.cacheAdd, h,
    RELASSIGN]

theorem C7_aux (n : Nat) : ∀ (ctx : PulpScriptContext) (r : List (List String)),
    ctx.funccache = ["local __event_x = __actor.x or __pulp.player.x"] :: r →
    (transpile_list (C7body n) ctx).2.funccache =
        ["local __event_x = __actor.x or __pulp.player.x"] :: r ∧
    (transpile_list (C7body n) ctx).2.indent = ctx.indent := by
  induction n with
  | zero => intro ctx r h; simp [C7body, transpile_list, h]
  | succ m ih =>
    intro ctx r h
    obtain ⟨h1, h2⟩ := C7_step ctx _ r (C7body m) h
    rw [show addSet ["local __event_x = __actor.x or __pulp.player.x"]
        "local __event_x = __actor.x or __pulp.player.x" =
        ["local __event_x = __actor.x or __pulp.player.x"] from by decide] at h1
    have hrec := ih (transpile_command (Cmd.set "a" (.get "event.x")) (C7body m) ctx).2 r h1
    rw [show C7body (m + 1) = Cmd.set "a" (.get "event.x") :: C7body m from rfl]
    rw [transpile_list]
    simp only [isList, if_true]
    exact ⟨hrec.1, hrec.2.trans h2⟩

set_option maxRecDepth 8000 in
/-- C7: a handler body with `n ≥ 1` reads of `event.x` caches exactly one
declaration line, and the flushed prologue is that single line — the same
prologue as for one read. -/
theorem C7_single_cache_line (n : Nat) (h : 1 ≤ n) :
    (transpile_list (C7body n) PulpScriptContext.init.push_funccache).2.get_funccache
        = ["local __event_x = __actor.x or __pulp.player.x"] ∧
    (transpile_commands (C7body n) PulpScriptContext.init true).1 =
      "  " ++ "local __event_x = __actor.x or __pulp.player.x" ++ "\n"
        ++ (transpile_list (C7body n) PulpScriptContext.init.push_funccache).1 := by
  obtain ⟨m, rfl⟩ : ∃ m, n = m + 1 := ⟨n - 1, by omega⟩
  have hstep := C7_step PulpScriptContext.init.push_funccache [] []
    (C7body m) (by decide)
  rw [show addSet [] "local __event_x = __actor.x or __pulp.player.x" =
      ["local __event_x = __actor.x or __pulp.player.x"] from by decide] at hstep
  obtain ⟨hs1, hs2⟩ := hstep
  have haux := C7_aux m (transpile_command (Cmd.set "a" (.get "event.x")) (C7body m)
      PulpScriptContext.init.push_funccache).2 [] hs1
  have hlist : (transpile_list (C7body (m + 1)) PulpScriptContext.init.push_funccache).2.funccache
      = [["local __event_x = __actor.x or __pulp.player.x"]] ∧
      (transpile_list (C7body (m + 1)) PulpScriptContext.init.push_funccache).2.indent = 1 := by
    rw [show C7body (m + 1) = Cmd.set "a" (.get "event.x") :: C7body m from rfl]
    rw [transpile_list]
    simp only [isList, if_true]
    refine ⟨haux.1, ?_⟩
    rw [haux.2, hs2]
    decide
  constructor
  · simp [PulpScriptContext.get_funccache, hlist.1]
  · rw [transpile_commands]
    simp only [if_pos rfl, if_true]
    rw [show transpile_list (C7body (m + 1)) PulpScriptContext.init.push_funccache =
      ((transpile_list (C7body (m + 1)) PulpScriptContext.init.push_funccache).1,
       (transpile_list (C7body (m + 1)) PulpScriptContext.init.push_funccache).2) from rfl]
    dsimp only
    rw [show (transpile_list (C7body (m + 1)) PulpScriptContext.init.push_funccache).2.get_funccache
        = ["local __event_x = __actor.x or __pulp.player.x"] from by
      simp [PulpScriptContext.get_funccache, hlist.1]]
    rw [show (transpile_list (C7body (m + 1)) PulpScriptContext.init.push_funccache).2.gi
        = "  " from by rw [PulpScriptContext.gi, hlist.2]; rfl]
    simp [List.insertionSort, List.orderedInsert, PulpScriptContext.pop_funccache]

set_option maxRecDepth 8000 in
/-- Witness for `C7_single_cache_line` at two reads. -/
theorem C7_single_cache_line_witness :
    (1 ≤ 2) ∧
    ((transpile_list (C7body 2) PulpScriptContext.init.push_funccache).2.get_funccache
        = ["local __event_x = __actor.x or __pulp.player.x"] ∧
    (transpile_commands (C7body 2) PulpScriptContext.init true).1 =
      "  " ++ "local __event_x = __actor.x or __pulp.player.x" ++ "\n"
        ++ (transpile_list (C7body 2) PulpScriptContext.init.push_funccache).1) :=
  ⟨by decide, C7_single_cache_line 2 (by decide)⟩

/-! ## C8: unknown expression tags become one diagnostic and a placeholder -/

/-- C8: an expression node with an unrecognized code yields the `nil`
placeholder with a comment and appends exactly one diagnostic; a sibling
command after it still compiles (the `done` statement below). -/
theorem C8_unknown_expression_tag (fn : String) (args : List Arg)
    (ctx : PulpScriptContext) (h : exfuncs.contains fn = false) :
    decode_rvalue (.exfunc fn args) ctx =
      ("nil --[[unknown expression code '" ++ fn ++ "']]",
       { ctx with errors := ctx.errors ++ ["unknown expression code: " ++ fn] }) ∧
    (transpile_list [Cmd.set "a" (.exfunc fn args), Cmd.done] ctx).2.errors =
      ctx.errors ++ ["unknown expression code: " ++ fn] ∧
    (transpile_list [Cmd.set "a" (.exfunc fn args), Cmd.done] ctx).1 =
      ctx.gi ++ "a = " ++ ("nil --[[unknown expression code '" ++ fn ++ "']]") ++ "\n"
        ++ ctx.gi ++ "do return end\n" := by
  have hdec : ∀ c : PulpScriptContext, decode_rvalue (.exfunc fn args) c =
      ("nil --[[unknown expression code '" ++ fn ++ "']]",
       { c with errors := c.errors ++ ["unknown expression code: " ++ fn] }) := by
    intro c
    rw [decode_rvalue.eq_9, if_neg (by simp_all)]
  refine ⟨hdec ctx, ?_, ?_⟩ <;>
    simp +decide [transpile_list, transpile_command, op_set, hdec, isList,
      sanitize_varname, is_id, PulpScriptContext.pingvar, PulpScriptContext.gi,
      RELASSIGN, get_next_cmds_tags, String.append_assoc]

/-- Witness for `C8_unknown_expression_tag` at the spec's `"frobnicate"`. -/
theorem C8_unknown_expression_tag_witness :
    (exfuncs.contains "frobnicate" = false) ∧
    (decode_rvalue (.exfunc "frobnicate" []) PulpScriptContext.init =
      ("nil --[[unknown expression code '" ++ "frobnicate" ++ "']]",
       { PulpScriptContext.init with
          errors := PulpScriptContext.init.errors ++
            ["unknown expression code: " ++ "frobnicate"] }) ∧
    (transpile_list [Cmd.set "a" (.exfunc "frobnicate" []), Cmd.done]
        PulpScriptContext.init).2.errors =
      PulpScriptContext.init.errors ++ ["unknown expression code: " ++ "frobnicate"] ∧
    (transpile_list [Cmd.set "a" (.exfunc "frobnicate" []), Cmd.done]
        PulpScriptContext.init).1 =
      PulpScriptContext.init.gi ++ "a = " ++
        ("nil --[[unknown expression code '" ++ "frobnicate" ++ "']]") ++ "\n"
        ++ PulpScriptContext.init.gi ++ "do return end\n") :=
  ⟨by decide, C8_unknown_expression_tag "frobnicate" [] PulpScriptContext.init (by decide)⟩

/-! ## C9: the three resolution tiers of opex_func -/

/-- Comma-separated argument list, as the spec describes the call tiers. -/
def commaJoin : List String → String
  | [] => ""
  | [x] => x
  | x :: y :: rest => x ++ ", " ++ commaJoin (y :: rest)

theorem argloop_false_phase (s : String) (l : List String) :
    (l.foldl (fun p arg => (p.1 ++ (if p.2 then arg else ", " ++ arg), false)) (s, false)).1 =
      s ++ (match l with | [] => "" | _ :: _ => ", " ++ commaJoin l) := by
  induction l generalizing s with
  | nil => simp
  | cons a rest ih =>
    rw [List.foldl_cons]
    simp only [if_neg Bool.false_ne_true]
    rw [ih]
    cases rest with
    | nil => simp [commaJoin]
    | cons b r2 => simp [commaJoin, String.append_assoc]

theorem argloop_eq_commaJoin (s0 : String) (l : List String) :
    argloop s0 l = s0 ++ commaJoin l := by
  cases l with
  | nil => simp [argloop, commaJoin]
  | cons a rest =>
    rw [argloop, List.foldl_cons]
    simp only [if_pos rfl]
    rw [argloop_false_phase]
    cases rest with
    | nil => simp [commaJoin]
    | cons b r2 => simp [commaJoin, String.append_assoc]

/-- The three resolution tiers, written from the spec's description:
an inline-expansion template for `prefix+op`, else a statically-bound
built-in for the bare `op`, else a generic runtime-namespace call. -/
def opex_tiers (op pre : String) (mainargs : List String) : String :=
  match lookupAssoc inlinefuncs (pre ++ op) with
  | some tmpl => substTemplate tmpl mainargs
  | none =>
    match lookupAssoc staticfuncs op with
    | some f => f ++ "(" ++ commaJoin mainargs ++ ")"
    | none => "__pulp." ++ pre ++ op ++ "(" ++ commaJoin mainargs ++ ")"

/-- C9: `opex_func` emits exactly what the spec's three-tier resolution
describes, applied to the marshalled (and, when declared, padded)
arguments; the context comes out of the marshalling alone. -/
theorem C9_three_tiers (args : List Arg) (op pre : String) (ctx : PulpScriptContext) :
    opex_func args op pre ctx =
      (opex_tiers op pre
        (match lookupAssoc funcargs op with
         | some names => opex_pad names
             (opex_collect args []
               [("actor", "__actor"), ("event", "event"), ("evname", "__evname")] ctx).2.1
             (opex_collect args []
               [("actor", "__actor"), ("event", "event"), ("evname", "__evname")] ctx).1
         | none => (opex_collect args []
             [("actor", "__actor"), ("event", "event"), ("evname", "__evname")] ctx).1),
       (opex_collect args []
         [("actor", "__actor"), ("event", "event"), ("evname", "__evname")] ctx).2.2) := by
  rw [opex_func]
  rw [show opex_collect args [] [("actor", "__actor"), ("event", "event"), ("evname", "__evname")] ctx =
    ((opex_collect args [] [("actor", "__actor"), ("event", "event"), ("evname", "__evname")] ctx).1,
     (opex_collect args [] [("actor", "__actor"), ("event", "event"), ("evname", "__evname")] ctx).2.1,
     (opex_collect args [] [("actor", "__actor"), ("event", "event"), ("evname", "__evname")] ctx).2.2)
    from rfl]
  dsimp only
  rw [opex_tiers]
  rcases hpad : lookupAssoc funcargs op with _ | names <;>
    rcases hinl : lookupAssoc inlinefuncs (pre ++ op) with _ | tmpl <;>
    rcases hst : lookupAssoc staticfuncs op with _ | f <;>
    simp [hpad, hinl, hst, argloop_eq_commaJoin, String.append_assoc]

/-! ## C10: inc/dec emit the raw lvalue with no registration -/

/-- C10: `inc`/`dec` emit the raw name followed by the operator — no
sanitization, no remapping, and the context (usage counts, known
variables) is returned untouched; a `set` of the same (plain) name,
by contrast, bumps the usage count and registers the sanitized variable. -/
theorem C10_inc_dec_raw (nm : String) (nc : List Cmd) (ctx : PulpScriptContext)
    (k : Int) (h1 : strContains nm '.' = false)
    (h2 : pyStartsWith nm "__PTLE_" = false) :
    transpile_command (Cmd.inc nm) nc ctx = (ctx.gi ++ (nm ++ "+=1") ++ "\n", ctx) ∧
    transpile_command (Cmd.dec nm) nc ctx = (ctx.gi ++ (nm ++ "-=1") ++ "\n", ctx) ∧
    op_inc nm "+=1" = nm ++ "+=1" ∧
    (transpile_command (Cmd.set nm (.num k)) nc ctx).2.var_usage =
      bumpUsage ctx.var_usage nm ∧
    (transpile_command (Cmd.set nm (.num k)) nc ctx).2.vars =
      addSet ctx.vars
        (sanitize_varname (if pyStartsWith nm "__" then "__" ++ nm else nm)) := by
  refine ⟨?_, ?_, rfl, ?_, ?_⟩ <;>
    simp [transpile_command, op_inc, op_set, decode_rvalue, RELASSIGN,
      PulpScriptContext.pingvar, h1, h2]

/-- Witness for `C10_inc_dec_raw` at `"foo"`. -/
theorem C10_inc_dec_raw_witness :
    (strContains "foo" '.' = false ∧ pyStartsWith "foo" "__PTLE_" = false) ∧
    (transpile_command (Cmd.inc "foo") [] PulpScriptContext.init =
        (PulpScriptContext.init.gi ++ ("foo" ++ "+=1") ++ "\n", PulpScriptContext.init) ∧
    transpile_command (Cmd.dec "foo") [] PulpScriptContext.init =
        (PulpScriptContext.init.gi ++ ("foo" ++ "-=1") ++ "\n", PulpScriptContext.init) ∧
    op_inc "foo" "+=1" = "foo" ++ "+=1" ∧
    (transpile_command (Cmd.set "foo" (.num 1)) [] PulpScriptContext.init).2.var_usage =
      bumpUsage PulpScriptContext.init.var_usage "foo" ∧
    (transpile_command (Cmd.set "foo" (.num 1)) [] PulpScriptContext.init).2.vars =
      addSet PulpScriptContext.init.vars
        (sanitize_varname (if pyStartsWith "foo" "__" then "__" ++ "foo" else "foo"))) :=
  ⟨⟨by decide, by decide⟩,
   C10_inc_dec_raw "foo" [] PulpScriptContext.init 1 (by decide) (by decide)⟩

/-- Witness for `C2_single_mimic_records_name`. -/
theorem C2_single_mimic_records_name_witness :
    (lookupAssoc C2ctx.tile_ids "pipe" = some 7) ∧
    (transpile_event "obj" "update" [Cmd.mimic (.str "pipe")] "" [] [] C2ctx).2.full_mimics
      = C2ctx.full_mimics ++ [("obj", "update", "pipe")] :=
  ⟨by decide, C2_single_mimic_records_name "obj" "update" "pipe" "" 7 [] [] C2ctx (by decide)⟩
